import Mathlib

/-!
Shallow embedding of the customer profile / cart consistency engine of the
sproutscloth storefront (source file `src/unnamed/part_000`, classes
`BaseProfileManager`, `FirebaseProfileManager`, `OfflineProfileManager`).

Modelling conventions:
* JS ISO-timestamp strings (`new Date().toISOString()`) are modelled as a
  `Nat` instant `now`, threaded into each operation as an argument (one call
  of an operation sees one instant, matching the source where all timestamps
  taken inside one call are interchangeable).
* JS numbers used as cart quantities are modelled as `Int` (the code never
  validates them, so negatives must be representable); catalog prices and
  cart totals are modelled as `ℚ`.
* Opaque payloads (`data` objects of analytics events, `product_data`
  snapshots, order data) are modelled as `String`.
* The global `products` catalog is modelled as a `List Product` argument;
  the `typeof products === 'undefined'` guard of `updateCartTotal`
  corresponds to running with the catalog defined, which is what every
  claim assumes ("a fixed product catalog").
* Firestore (`Remote Profile Store`) and `localStorage` (`Local Cache`) are
  modelled as association lists from string keys to documents; `set` with
  `{merge:true}` on a complete profile document is modelled as an overwrite.
* `async`/`await` sequencing is cooperative and single-threaded in the
  source, so operations are ordinary state-to-state functions.
-/

/-- Profile kind: the `type` field of a profile, `'guest'` or `'registered'`. -/
inductive ProfileType where
  | guest
  | registered
deriving DecidableEq, Repr

/-- One cart line: `{product_id, quantity, added_at, updated_at}`. -/
structure CartItem where
  product_id : String
  quantity : Int
  added_at : Nat
  updated_at : Nat
deriving DecidableEq, Repr

/-- The cart object `{items, total, updated_at}`; `updated_at` starts `null`. -/
structure Cart where
  items : List CartItem
  total : ℚ
  updated_at : Option Nat
deriving DecidableEq, Repr

/-- An abandoned-cart snapshot: a spread of the cart plus `abandoned_at`. -/
structure AbandonedCart where
  items : List CartItem
  total : ℚ
  updated_at : Option Nat
  abandoned_at : Nat
deriving DecidableEq, Repr

/-- A wishlist entry `{product_id, product_data, added_at}`. -/
structure WishlistItem where
  product_id : String
  product_data : String
  added_at : Nat
deriving DecidableEq, Repr

/-- A purchase record: opaque order data spread plus `purchased_at`. -/
structure Purchase where
  order_data : String
  purchased_at : Nat
deriving DecidableEq, Repr

/-- The `shopping` sub-object of a profile. -/
structure Shopping where
  cart : Cart
  wishlist : List WishlistItem
  purchase_history : List Purchase
  abandoned_carts : List AbandonedCart
deriving DecidableEq, Repr

/-- A page-view record `{page, data, timestamp, url}`. -/
structure PageView where
  page : String
  data : String
  timestamp : Nat
  url : String
deriving DecidableEq, Repr

/-- A product-view record `{product_id, product_data, timestamp}`. -/
structure ProductView where
  product_id : String
  product_data : String
  timestamp : Nat
deriving DecidableEq, Repr

/-- The `browsing` sub-object of a profile. -/
structure Browsing where
  page_views : List PageView
  product_views : List ProductView
  categories_visited : List String
  search_queries : List String
  time_spent : Nat
  last_active : Nat
deriving DecidableEq, Repr

/-- An analytics event `{action, data, timestamp, page_url, user_agent}`. -/
structure AnalyticsEvent where
  action : String
  data : String
  timestamp : Nat
  page_url : String
  user_agent : String
deriving DecidableEq, Repr

/-- The `analytics` sub-object of a profile. -/
structure Analytics where
  events : List AnalyticsEvent
  filters_used : List String
  actions_taken : List String
deriving DecidableEq, Repr

/-- The `personal_info` sub-object; `null`-able fields are `Option`s. -/
structure PersonalInfo where
  email : Option String
  name : Option String
  phone : Option String
  addresses : List String
deriving DecidableEq, Repr

/-- The `preferences` sub-object. -/
structure Preferences where
  currency : String
  notifications : Bool
  marketing_emails : Bool
  size_preferences : List (String × String)
  favorite_categories : List String
deriving DecidableEq, Repr

/-- The `metadata` sub-object (device/environment fingerprint, visit count). -/
structure ProfileMetadata where
  user_agent : String
  screen_resolution : String
  timezone : String
  language : String
  referrer : String
  first_visit : Nat
  visit_count : Int
deriving DecidableEq, Repr

/-- The `converted_from_guest` audit record attached by guest conversion. -/
structure ConvertedFromGuest where
  original_guest_id : String
  converted_at : Nat
  guest_session_id : String
deriving DecidableEq, Repr

/-- The root profile document held in `currentProfile`. -/
structure Profile where
  id : String
  type : ProfileType
  created_at : Nat
  updated_at : Nat
  session_id : String
  personal_info : PersonalInfo
  shopping : Shopping
  browsing : Browsing
  analytics : Analytics
  preferences : Preferences
  metadata : ProfileMetadata
  converted_from_guest : Option ConvertedFromGuest
deriving DecidableEq, Repr

/-- A catalog entry; only `id` and `price` are consulted by the core. -/
structure Product where
  id : String
  price : ℚ
deriving DecidableEq, Repr

/-- Environment fingerprint captured into `metadata` at profile creation
(`navigator.userAgent`, screen size, timezone, language, referrer) and wired
into tracking events (`window.location.href`, `navigator.userAgent`). -/
structure EnvInfo where
  user_agent : String
  screen_resolution : String
  timezone : String
  language : String
  referrer : String
  page_url : String
deriving DecidableEq, Repr

/-- JS `xs.slice(-n)` for `n > 0` on an array with more than `n` elements
keeps the last `n`; when the array has at most `n` elements it is the whole
array. `sliceLast n xs = xs.drop (xs.length - n)` has exactly that behavior. -/
def sliceLast (n : Nat) (xs : List α) : List α :=
  xs.drop (xs.length - n)

/-- Source: `BaseProfileManager.createBaseProfile(profileId, profileType)`. -/
def createBaseProfile (env : EnvInfo) (now : Nat) (sessionId : String)
    (profileId : String) (profileType : ProfileType) : Profile :=
  { id := profileId
    type := profileType
    created_at := now
    updated_at := now
    session_id := sessionId
    personal_info := { email := none, name := none, phone := none, addresses := [] }
    shopping :=
      { cart := { items := [], total := 0, updated_at := none }
        wishlist := []
        purchase_history := []
        abandoned_carts := [] }
    browsing :=
      { page_views := []
        product_views := []
        categories_visited := []
        search_queries := []
        time_spent := 0
        last_active := now }
    analytics := { events := [], filters_used := [], actions_taken := [] }
    preferences :=
      { currency := "USD"
        notifications := true
        marketing_emails := false
        size_preferences := []
        favorite_categories := [] }
    metadata :=
      { user_agent := env.user_agent
        screen_resolution := env.screen_resolution
        timezone := env.timezone
        language := env.language
        referrer := env.referrer
        first_visit := now
        visit_count := 1 }
    converted_from_guest := none }

namespace FirebaseProfileManager

/-- Source: the loop body of `updateCartTotal` — `total` accumulates
`product.price * item.quantity` for each item whose `product_id` is found in
the `products` catalog, items missing from the catalog contribute nothing. -/
def itemsTotal (products : List Product) (items : List CartItem) : ℚ :=
  items.foldl
    (fun acc item =>
      match products.find? (fun p => p.id == item.product_id) with
      | some p => acc + p.price * (item.quantity : ℚ)
      | none => acc)
    0

/-- Source: `FirebaseProfileManager.updateCartTotal()` (lines 2372-2385). -/
def updateCartTotal (products : List Product) (now : Nat) (p : Profile) : Profile :=
  { p with shopping.cart.total := itemsTotal products p.shopping.cart.items
           shopping.cart.updated_at := some now }

/-- JS mutation `existingItem.quantity += quantity; existingItem.updated_at = now`
applied to the item returned by `Array.prototype.find`, i.e. the FIRST item
whose `product_id` matches. -/
def bumpFirst (productId : String) (quantity : Int) (now : Nat) :
    List CartItem → List CartItem
  | [] => []
  | item :: rest =>
    if item.product_id == productId then
      { item with quantity := item.quantity + quantity, updated_at := now } :: rest
    else
      item :: bumpFirst productId quantity now rest

/-- JS mutation `item.quantity = quantity; item.updated_at = now` applied to
the first item whose `product_id` matches (`Array.prototype.find`). -/
def setQuantityFirst (productId : String) (quantity : Int) (now : Nat) :
    List CartItem → List CartItem
  | [] => []
  | item :: rest =>
    if item.product_id == productId then
      { item with quantity := quantity, updated_at := now } :: rest
    else
      item :: setQuantityFirst productId quantity now rest

/-- Source: `FirebaseProfileManager.addToCart(productId, quantity = 1)`
(lines 2258-2277), minus the null-profile guard (see the `Option`-level
wrappers) and the persistence call. -/
def addToCart (products : List Product) (now : Nat) (productId : String)
    (quantity : Int) (p : Profile) : Profile :=
  let items := p.shopping.cart.items
  let items' :=
    match items.find? (fun item => item.product_id == productId) with
    | some _ => bumpFirst productId quantity now items
    | none =>
      items ++ [{ product_id := productId, quantity := quantity,
                  added_at := now, updated_at := now }]
  updateCartTotal products now { p with shopping.cart.items := items' }

/-- Source: `FirebaseProfileManager.removeFromCart(productId)` (lines 2279-2288). -/
def removeFromCart (products : List Product) (now : Nat) (productId : String)
    (p : Profile) : Profile :=
  updateCartTotal products now
    { p with shopping.cart.items :=
        p.shopping.cart.items.filter (fun item => !(item.product_id == productId)) }

/-- Source: `FirebaseProfileManager.updateCartQuantity(productId, quantity)`
(lines 2290-2304). -/
def updateCartQuantity (products : List Product) (now : Nat) (productId : String)
    (quantity : Int) (p : Profile) : Profile :=
  match p.shopping.cart.items.find? (fun item => item.product_id == productId) with
  | none => p
  | some _ =>
    if quantity ≤ 0 then
      removeFromCart products now productId p
    else
      updateCartTotal products now
        { p with shopping.cart.items :=
            setQuantityFirst productId quantity now p.shopping.cart.items }

/-- Source: `FirebaseProfileManager.clearCart()` (lines 2306-2329). -/
def clearCart (now : Nat) (p : Profile) : Profile :=
  let p' :=
    if p.shopping.cart.items.length > 0 then
      let snapshot : AbandonedCart :=
        { items := p.shopping.cart.items
          total := p.shopping.cart.total
          updated_at := p.shopping.cart.updated_at
          abandoned_at := now }
      let ac := p.shopping.abandoned_carts ++ [snapshot]
      let ac := if ac.length > 10 then sliceLast 10 ac else ac
      { p with shopping.abandoned_carts := ac }
    else p
  { p' with shopping.cart := { items := [], total := 0, updated_at := some now } }

/-- Source: `FirebaseProfileManager.trackAction(action, data)` (lines
2188-2216): append an event, bump `last_active`/`updated_at`, keep only the
last 1000 events. -/
def trackAction (env : EnvInfo) (now : Nat) (action : String) (data : String)
    (p : Profile) : Profile :=
  let event : AnalyticsEvent :=
    { action := action, data := data, timestamp := now,
      page_url := env.page_url, user_agent := env.user_agent }
  let events := p.analytics.events ++ [event]
  let events := if events.length > 1000 then sliceLast 1000 events else events
  { p with analytics.events := events
           browsing.last_active := now
           updated_at := now }

/-- Source: `FirebaseProfileManager.trackPageView(pageName, data)` (lines
2218-2237): append a page view, bump `last_active`, keep only the last 500. -/
def trackPageView (env : EnvInfo) (now : Nat) (pageName : String) (data : String)
    (p : Profile) : Profile :=
  let pv : PageView :=
    { page := pageName, data := data, timestamp := now, url := env.page_url }
  let pvs := p.browsing.page_views ++ [pv]
  let pvs := if pvs.length > 500 then sliceLast 500 pvs else pvs
  { p with browsing.page_views := pvs
           browsing.last_active := now }

/-- Source: `FirebaseProfileManager.trackProductView(productId, productData)`
(lines 2239-2256): append a product view, keep only the last 100. -/
def trackProductView (now : Nat) (productId : String) (productData : String)
    (p : Profile) : Profile :=
  let pv : ProductView :=
    { product_id := productId, product_data := productData, timestamp := now }
  let pvs := p.browsing.product_views ++ [pv]
  let pvs := if pvs.length > 100 then sliceLast 100 pvs else pvs
  { p with browsing.product_views := pvs }

/-- Source: `FirebaseProfileManager.addToWishlist(productId, productData)`
(lines 2331-2344): no-op when an entry with that `product_id` exists. -/
def addToWishlist (now : Nat) (productId : String) (productData : String)
    (p : Profile) : Profile :=
  match p.shopping.wishlist.find? (fun item => item.product_id == productId) with
  | some _ => p
  | none =>
    { p with shopping.wishlist :=
        p.shopping.wishlist ++
          [{ product_id := productId, product_data := productData, added_at := now }] }

/-- Source: `FirebaseProfileManager.removeFromWishlist(productId)` (lines 2346-2354). -/
def removeFromWishlist (productId : String) (p : Profile) : Profile :=
  { p with shopping.wishlist :=
      p.shopping.wishlist.filter (fun item => !(item.product_id == productId)) }

/-- Source: `FirebaseProfileManager.addPurchase(orderData)` (lines 2356-2370):
append to `purchase_history`, then `clearCart()`. -/
def addPurchase (now : Nat) (orderData : String) (p : Profile) : Profile :=
  clearCart now
    { p with shopping.purchase_history :=
        p.shopping.purchase_history ++ [{ order_data := orderData, purchased_at := now }] }

end FirebaseProfileManager

/-- A partial `personal_info` object passed into `updateProfile`; `some v`
means the key is present in the JS updates object (so `Object.assign` copies
it), `none` means it is absent. -/
structure PersonalInfoPatch where
  email : Option (Option String) := none
  name : Option (Option String) := none
  phone : Option (Option String) := none
  addresses : Option (List String) := none
deriving DecidableEq, Repr

/-- A partial `preferences` object passed into `updateProfile`. -/
structure PreferencesPatch where
  currency : Option String := none
  notifications : Option Bool := none
  marketing_emails : Option Bool := none
  size_preferences : Option (List (String × String)) := none
  favorite_categories : Option (List String) := none
deriving DecidableEq, Repr

/-- The `updates` argument of `updateProfile`: either sub-object may be
absent (JS `updates.personal_info || {}`). -/
structure ProfileUpdates where
  personal_info : Option PersonalInfoPatch := none
  preferences : Option PreferencesPatch := none
deriving DecidableEq, Repr

/-- JS `Object.assign(target, patch)`: keys present in the patch overwrite
the target's, keys absent leave the target's value. -/
def PersonalInfo.assign (pi : PersonalInfo) (patch : PersonalInfoPatch) : PersonalInfo :=
  { email := patch.email.getD pi.email
    name := patch.name.getD pi.name
    phone := patch.phone.getD pi.phone
    addresses := patch.addresses.getD pi.addresses }

/-- JS `Object.assign(target, patch)` on the `preferences` sub-object. -/
def Preferences.assign (pr : Preferences) (patch : PreferencesPatch) : Preferences :=
  { currency := patch.currency.getD pr.currency
    notifications := patch.notifications.getD pr.notifications
    marketing_emails := patch.marketing_emails.getD pr.marketing_emails
    size_preferences := patch.size_preferences.getD pr.size_preferences
    favorite_categories := patch.favorite_categories.getD pr.favorite_categories }

namespace FirebaseProfileManager

/-- Source: the in-memory part of `FirebaseProfileManager.updateProfile(updates)`
(lines 2156-2186): shallow-merge `personal_info` and `preferences`, bump
`updated_at`. -/
def updateProfile (now : Nat) (updates : ProfileUpdates) (p : Profile) : Profile :=
  { p with
    personal_info := p.personal_info.assign (updates.personal_info.getD {})
    preferences := p.preferences.assign (updates.preferences.getD {})
    updated_at := now }

end FirebaseProfileManager

namespace OfflineProfileManager

/-- Source: the loop body of `OfflineProfileManager.updateCartTotal`
(lines 2651-2664), textually identical to the Firebase variant's. -/
def itemsTotal (products : List Product) (items : List CartItem) : ℚ :=
  items.foldl
    (fun acc item =>
      match products.find? (fun p => p.id == item.product_id) with
      | some p => acc + p.price * (item.quantity : ℚ)
      | none => acc)
    0

/-- Source: `OfflineProfileManager.updateCartTotal()` (lines 2651-2664). -/
def updateCartTotal (products : List Product) (now : Nat) (p : Profile) : Profile :=
  { p with shopping.cart.total := itemsTotal products p.shopping.cart.items
           shopping.cart.updated_at := some now }

/-- Mutation of the first `product_id` match returned by `Array.prototype.find`
in `OfflineProfileManager.addToCart`. -/
def bumpFirst (productId : String) (quantity : Int) (now : Nat) :
    List CartItem → List CartItem
  | [] => []
  | item :: rest =>
    if item.product_id == productId then
      { item with quantity := item.quantity + quantity, updated_at := now } :: rest
    else
      item :: bumpFirst productId quantity now rest

/-- Mutation of the first `product_id` match in
`OfflineProfileManager.updateCartQuantity`. -/
def setQuantityFirst (productId : String) (quantity : Int) (now : Nat) :
    List CartItem → List CartItem
  | [] => []
  | item :: rest =>
    if item.product_id == productId then
      { item with quantity := quantity, updated_at := now } :: rest
    else
      item :: setQuantityFirst productId quantity now rest

/-- Source: `OfflineProfileManager.addToCart(productId, quantity = 1)`
(lines 2542-2561). -/
def addToCart (products : List Product) (now : Nat) (productId : String)
    (quantity : Int) (p : Profile) : Profile :=
  let items := p.shopping.cart.items
  let items' :=
    match items.find? (fun item => item.product_id == productId) with
    | some _ => bumpFirst productId quantity now items
    | none =>
      items ++ [{ product_id := productId, quantity := quantity,
                  added_at := now, updated_at := now }]
  updateCartTotal products now { p with shopping.cart.items := items' }

/-- Source: `OfflineProfileManager.removeFromCart(productId)` (lines 2563-2572). -/
def removeFromCart (products : List Product) (now : Nat) (productId : String)
    (p : Profile) : Profile :=
  updateCartTotal products now
    { p with shopping.cart.items :=
        p.shopping.cart.items.filter (fun item => !(item.product_id == productId)) }

/-- Source: `OfflineProfileManager.updateCartQuantity(productId, quantity)`
(lines 2574-2588). -/
def updateCartQuantity (products : List Product) (now : Nat) (productId : String)
    (quantity : Int) (p : Profile) : Profile :=
  match p.shopping.cart.items.find? (fun item => item.product_id == productId) with
  | none => p
  | some _ =>
    if quantity ≤ 0 then
      removeFromCart products now productId p
    else
      updateCartTotal products now
        { p with shopping.cart.items :=
            setQuantityFirst productId quantity now p.shopping.cart.items }

/-- Source: `OfflineProfileManager.clearCart()` (lines 2590-2611). -/
def clearCart (now : Nat) (p : Profile) : Profile :=
  let p' :=
    if p.shopping.cart.items.length > 0 then
      let snapshot : AbandonedCart :=
        { items := p.shopping.cart.items
          total := p.shopping.cart.total
          updated_at := p.shopping.cart.updated_at
          abandoned_at := now }
      let ac := p.shopping.abandoned_carts ++ [snapshot]
      let ac := if ac.length > 10 then sliceLast 10 ac else ac
      { p with shopping.abandoned_carts := ac }
    else p
  { p' with shopping.cart := { items := [], total := 0, updated_at := some now } }

/-- Source: `OfflineProfileManager.trackAction(action, data)` (lines 2481-2502). -/
def trackAction (env : EnvInfo) (now : Nat) (action : String) (data : String)
    (p : Profile) : Profile :=
  let event : AnalyticsEvent :=
    { action := action, data := data, timestamp := now,
      page_url := env.page_url, user_agent := env.user_agent }
  let events := p.analytics.events ++ [event]
  let events := if events.length > 1000 then sliceLast 1000 events else events
  { p with analytics.events := events
           browsing.last_active := now
           updated_at := now }

/-- Source: `OfflineProfileManager.trackPageView(pageName, data)` (lines 2504-2522). -/
def trackPageView (env : EnvInfo) (now : Nat) (pageName : String) (data : String)
    (p : Profile) : Profile :=
  let pv : PageView :=
    { page := pageName, data := data, timestamp := now, url := env.page_url }
  let pvs := p.browsing.page_views ++ [pv]
  let pvs := if pvs.length > 500 then sliceLast 500 pvs else pvs
  { p with browsing.page_views := pvs
           browsing.last_active := now }

/-- Source: `OfflineProfileManager.trackProductView(productId, productData)`
(lines 2524-2540). -/
def trackProductView (now : Nat) (productId : String) (productData : String)
    (p : Profile) : Profile :=
  let pv : ProductView :=
    { product_id := productId, product_data := productData, timestamp := now }
  let pvs := p.browsing.product_views ++ [pv]
  let pvs := if pvs.length > 100 then sliceLast 100 pvs else pvs
  { p with browsing.product_views := pvs }

/-- Source: `OfflineProfileManager.addToWishlist(productId, productData)`
(lines 2613-2626). -/
def addToWishlist (now : Nat) (productId : String) (productData : String)
    (p : Profile) : Profile :=
  match p.shopping.wishlist.find? (fun item => item.product_id == productId) with
  | some _ => p
  | none =>
    { p with shopping.wishlist :=
        p.shopping.wishlist ++
          [{ product_id := productId, product_data := productData, added_at := now }] }

/-- Source: `OfflineProfileManager.removeFromWishlist(productId)` (lines 2628-2636). -/
def removeFromWishlist (productId : String) (p : Profile) : Profile :=
  { p with shopping.wishlist :=
      p.shopping.wishlist.filter (fun item => !(item.product_id == productId)) }

/-- Source: `OfflineProfileManager.addPurchase(orderData)` (lines 2638-2649). -/
def addPurchase (now : Nat) (orderData : String) (p : Profile) : Profile :=
  clearCart now
    { p with shopping.purchase_history :=
        p.shopping.purchase_history ++ [{ order_data := orderData, purchased_at := now }] }

/-- Source: the in-memory part of `OfflineProfileManager.updateProfile(updates)`
(lines 2470-2479). -/
def updateProfile (now : Nat) (updates : ProfileUpdates) (p : Profile) : Profile :=
  { p with
    personal_info := p.personal_info.assign (updates.personal_info.getD {})
    preferences := p.preferences.assign (updates.preferences.getD {})
    updated_at := now }

end OfflineProfileManager

/-- Lookup in an association-list document store (Firestore collection or
`localStorage`): the value stored under key `k`, if any. -/
def docGet (m : List (String × Profile)) (k : String) : Option Profile :=
  (m.find? (fun kv => kv.1 == k)).map (fun kv => kv.2)

/-- Overwrite-or-create the document stored under key `k`. -/
def docSet (m : List (String × Profile)) (k : String) (v : Profile) :
    List (String × Profile) :=
  m.filter (fun kv => !(kv.1 == k)) ++ [(k, v)]

/-- Delete the document stored under key `k` (`delete()` / `removeItem`). -/
def docDelete (m : List (String × Profile)) (k : String) : List (String × Profile) :=
  m.filter (fun kv => !(kv.1 == k))

/-- Source: the Local Cache key `` `guest_profile_${sessionId}` ``. -/
def guestProfileKey (sessionId : String) : String :=
  "guest_profile_" ++ sessionId

/-- The authenticated identity delivered by the Identity Provider
(`user.uid`, `user.email`, `user.displayName`). -/
structure AuthUser where
  uid : String
  email : Option String
  displayName : Option String
deriving DecidableEq, Repr

/-- The `userInfo` argument of `convertGuestToRegistered`. -/
structure UserInfo where
  email : String
  name : Option String
  phone : Option String
  marketing_emails : Bool
deriving DecidableEq, Repr

/-- State owned by one `FirebaseProfileManager` instance: the in-memory
`currentProfile`, the Remote Profile Store (`user_profiles` collection) and
the Local Cache (`localStorage`). -/
structure ManagerState where
  currentProfile : Option Profile
  remote : List (String × Profile)
  cache : List (String × Profile)
deriving DecidableEq, Repr

namespace FirebaseProfileManager

/-- Persistence effect of `batchUpdateProfile()` (lines 2400-2425), modelled
at the trailing edge of the debounce window: a merge-`set` of the full
current profile to the Remote Profile Store, plus a Local Cache
write-through when the profile is a guest. -/
def persistProfile (sessionId : String) (p : Profile) (s : ManagerState) :
    ManagerState :=
  let s1 := { s with remote := docSet s.remote p.id p }
  if p.type = ProfileType.guest then
    { s1 with cache := docSet s1.cache (guestProfileKey sessionId) p }
  else s1

/-- Source: `FirebaseProfileManager.trackAction` at manager level, including
the `if (!this.currentProfile) return;` guard and persistence. -/
def trackActionS (env : EnvInfo) (now : Nat) (sessionId : String)
    (action : String) (data : String) (s : ManagerState) : ManagerState :=
  match s.currentProfile with
  | none => s
  | some p =>
    let p' := trackAction env now action data p
    persistProfile sessionId p' { s with currentProfile := some p' }

/-- Source: `FirebaseProfileManager.trackPageView` at manager level. -/
def trackPageViewS (env : EnvInfo) (now : Nat) (sessionId : String)
    (pageName : String) (data : String) (s : ManagerState) : ManagerState :=
  match s.currentProfile with
  | none => s
  | some p =>
    let p' := trackPageView env now pageName data p
    persistProfile sessionId p' { s with currentProfile := some p' }

/-- Source: `FirebaseProfileManager.trackProductView` at manager level. -/
def trackProductViewS (now : Nat) (sessionId : String)
    (productId : String) (productData : String) (s : ManagerState) : ManagerState :=
  match s.currentProfile with
  | none => s
  | some p =>
    let p' := trackProductView now productId productData p
    persistProfile sessionId p' { s with currentProfile := some p' }

/-- Source: `FirebaseProfileManager.addToCart` at manager level. -/
def addToCartS (products : List Product) (now : Nat) (sessionId : String)
    (productId : String) (quantity : Int) (s : ManagerState) : ManagerState :=
  match s.currentProfile with
  | none => s
  | some p =>
    let p' := addToCart products now productId quantity p
    persistProfile sessionId p' { s with currentProfile := some p' }

/-- Source: `FirebaseProfileManager.removeFromCart` at manager level. -/
def removeFromCartS (products : List Product) (now : Nat) (sessionId : String)
    (productId : String) (s : ManagerState) : ManagerState :=
  match s.currentProfile with
  | none => s
  | some p =>
    let p' := removeFromCart products now productId p
    persistProfile sessionId p' { s with currentProfile := some p' }

/-- Source: `FirebaseProfileManager.updateCartQuantity` at manager level.
When no cart line matches, neither persistence call runs. -/
def updateCartQuantityS (products : List Product) (now : Nat) (sessionId : String)
    (productId : String) (quantity : Int) (s : ManagerState) : ManagerState :=
  match s.currentProfile with
  | none => s
  | some p =>
    match p.shopping.cart.items.find? (fun item => item.product_id == productId) with
    | none => s
    | some _ =>
      let p' := updateCartQuantity products now productId quantity p
      persistProfile sessionId p' { s with currentProfile := some p' }

/-- Source: `FirebaseProfileManager.clearCart` at manager level. -/
def clearCartS (now : Nat) (sessionId : String) (s : ManagerState) : ManagerState :=
  match s.currentProfile with
  | none => s
  | some p =>
    let p' := clearCart now p
    persistProfile sessionId p' { s with currentProfile := some p' }

/-- Source: `FirebaseProfileManager.addToWishlist` at manager level; when the
entry already exists nothing is persisted. -/
def addToWishlistS (now : Nat) (sessionId : String)
    (productId : String) (productData : String) (s : ManagerState) : ManagerState :=
  match s.currentProfile with
  | none => s
  | some p =>
    match p.shopping.wishlist.find? (fun item => item.product_id == productId) with
    | some _ => s
    | none =>
      let p' := addToWishlist now productId productData p
      persistProfile sessionId p' { s with currentProfile := some p' }

/-- Source: `FirebaseProfileManager.removeFromWishlist` at manager level. -/
def removeFromWishlistS (sessionId : String) (productId : String)
    (s : ManagerState) : ManagerState :=
  match s.currentProfile with
  | none => s
  | some p =>
    let p' := removeFromWishlist productId p
    persistProfile sessionId p' { s with currentProfile := some p' }

/-- Source: `FirebaseProfileManager.addPurchase` at manager level
(`clearCart` inside it persists too; both writes collapse into the same
trailing-edge profile snapshot). -/
def addPurchaseS (now : Nat) (sessionId : String) (orderData : String)
    (s : ManagerState) : ManagerState :=
  match s.currentProfile with
  | none => s
  | some p =>
    let p' := addPurchase now orderData p
    persistProfile sessionId p' { s with currentProfile := some p' }

/-- Result of `FirebaseProfileManager.updateProfile`: `nullProfile` models the
early `return null`, `ok` the returned updated profile, `threw` the rethrown
remote-update failure (document missing). -/
inductive UpdateResult where
  | nullProfile
  | ok (p : Profile)
  | threw
deriving DecidableEq, Repr

/-- Source: `FirebaseProfileManager.updateProfile(updates)` (lines 2156-2186)
at manager level: in-memory shallow merge, then a partial remote update of
`personal_info`, `preferences` and `updated_at`, then a guest Local Cache
write-through. A missing remote document makes the remote `update()` reject;
the in-memory mutation has already happened when that error is rethrown. -/
def updateProfileS (now : Nat) (sessionId : String) (updates : ProfileUpdates)
    (s : ManagerState) : ManagerState × UpdateResult :=
  match s.currentProfile with
  | none => (s, UpdateResult.nullProfile)
  | some p =>
    let p' := updateProfile now updates p
    let s1 := { s with currentProfile := some p' }
    match docGet s1.remote p'.id with
    | none => (s1, UpdateResult.threw)
    | some doc =>
      let doc' := { doc with personal_info := p'.personal_info
                             preferences := p'.preferences
                             updated_at := p'.updated_at }
      let s2 := { s1 with remote := docSet s1.remote p'.id doc' }
      let s3 :=
        if p'.type = ProfileType.guest then
          { s2 with cache := docSet s2.cache (guestProfileKey sessionId) p' }
        else s2
      (s3, UpdateResult.ok p')

/-- Source: `FirebaseProfileManager.mergeGuestData(registeredProfile)`
(lines 2089-2144), in-memory merge rule, field by field guest → registered. -/
def mergeGuestData (registeredProfile guestProfile : Profile) : Profile :=
  let rp := registeredProfile
  let rp :=
    if guestProfile.shopping.cart.items.length > 0 then
      { rp with shopping.cart := guestProfile.shopping.cart }
    else rp
  let rp :=
    if guestProfile.shopping.wishlist.length > 0 then
      { rp with shopping.wishlist :=
          rp.shopping.wishlist ++
            guestProfile.shopping.wishlist.filter (fun item =>
              !(rp.shopping.wishlist.any (fun existing =>
                existing.product_id == item.product_id))) }
    else rp
  let rp := { rp with browsing.page_views :=
                rp.browsing.page_views ++ guestProfile.browsing.page_views }
  let rp := { rp with browsing.product_views :=
                rp.browsing.product_views ++ guestProfile.browsing.product_views }
  let rp := { rp with analytics.events :=
                rp.analytics.events ++ guestProfile.analytics.events }
  { rp with metadata.visit_count :=
      rp.metadata.visit_count + guestProfile.metadata.visit_count }

/-- Source: `FirebaseProfileManager.mergeGuestData` at manager level: read the
guest document from the Local Cache (no-op when absent), merge it into the
given profile, delete the Local Cache entry, write the merged profile back to
the Remote Profile Store. -/
def mergeGuestDataS (sessionId : String) (s : ManagerState) (rp : Profile) :
    ManagerState × Profile :=
  match docGet s.cache (guestProfileKey sessionId) with
  | none => (s, rp)
  | some guestProfile =>
    let merged := mergeGuestData rp guestProfile
    let s1 := { s with cache := docDelete s.cache (guestProfileKey sessionId) }
    let s2 := { s1 with remote := docSet s1.remote merged.id merged }
    (s2, merged)

/-- Source: `FirebaseProfileManager.updateLastActive(profileId)` (lines
2387-2398): a partial remote update of `browsing.last_active` and an
increment of `metadata.visit_count`; a missing document makes `update()`
reject, which is caught and logged (no state change). -/
def updateLastActiveRemote (now : Nat) (profileId : String) (s : ManagerState) :
    ManagerState :=
  match docGet s.remote profileId with
  | none => s
  | some doc =>
    let doc' := { doc with browsing.last_active := now
                           metadata.visit_count := doc.metadata.visit_count + 1 }
    { s with remote := docSet s.remote profileId doc' }

/-- Source: `FirebaseProfileManager.createRegisteredProfile(user)` (lines
1941-1962): fresh base profile under the identity's uid, email and display
name copied in, guest data merged, document written. -/
def createRegisteredProfile (env : EnvInfo) (now : Nat) (sessionId : String)
    (user : AuthUser) (s : ManagerState) : ManagerState × Profile :=
  let profile0 := createBaseProfile env now sessionId user.uid ProfileType.registered
  let profile1 := { profile0 with
    personal_info := { profile0.personal_info with
      email := user.email
      name := user.displayName } }
  let (s1, profile2) := mergeGuestDataS sessionId s profile1
  ({ s1 with remote := docSet s1.remote user.uid profile2 }, profile2)

/-- Source: `FirebaseProfileManager.loadRegisteredProfile(user)` (lines
1917-1939): load the remote document when it exists (merging cached guest
data into it and bumping remote `last_active`), else create a fresh
registered profile. -/
def loadRegisteredProfile (env : EnvInfo) (now : Nat) (sessionId : String)
    (user : AuthUser) (s : ManagerState) : ManagerState × Profile :=
  match docGet s.remote user.uid with
  | some doc =>
    let (s1, merged) := mergeGuestDataS sessionId s doc
    (updateLastActiveRemote now user.uid s1, merged)
  | none => createRegisteredProfile env now sessionId user s

/-- Source: `FirebaseProfileManager.loadGuestProfile()` (lines 1964-1998):
return the cached guest profile when the Local Cache has one (best-effort
syncing it to the Remote Profile Store), else synthesize a fresh guest
profile, cache it and best-effort write it remotely. -/
def loadGuestProfile (env : EnvInfo) (now : Nat) (sessionId : String)
    (s : ManagerState) : ManagerState × Profile :=
  match docGet s.cache (guestProfileKey sessionId) with
  | some localProfile =>
    ({ s with remote := docSet s.remote localProfile.id localProfile }, localProfile)
  | none =>
    let profileId := "guest_" ++ sessionId
    let profile := createBaseProfile env now sessionId profileId ProfileType.guest
    ({ s with cache := docSet s.cache (guestProfileKey sessionId) profile
              remote := docSet s.remote profileId profile },
     profile)

/-- Source: `FirebaseProfileManager.handleAuthChange(user)` (lines 2146-2154):
sign-in while a guest profile is current loads/merges the registered profile;
sign-out while a registered profile is current loads a guest profile; every
other combination leaves the state alone. -/
def handleAuthChange (env : EnvInfo) (now : Nat) (sessionId : String)
    (user : Option AuthUser) (s : ManagerState) : ManagerState :=
  match user, s.currentProfile with
  | some u, some p =>
    if p.type = ProfileType.guest then
      let (s1, profile) := loadRegisteredProfile env now sessionId u s
      { s1 with currentProfile := some profile }
    else s
  | none, some p =>
    if p.type = ProfileType.registered then
      let (s1, profile) := loadGuestProfile env now sessionId s
      { s1 with currentProfile := some profile }
    else s
  | _, none => s

/-- Source: `FirebaseProfileManager.convertGuestToRegistered(userInfo,
password)` (lines 2001-2077). `authResult` is the outcome of the Identity
Provider's `createUserWithEmailAndPassword`: `none` models a rejection
(duplicate email, weak password, network), `some uid` success.
`deleteGuestDocOk` is the outcome of the best-effort old-guest-document
delete. The returned `Option Profile` is `none` when the call throws. -/
def convertGuestToRegistered (env : EnvInfo) (now : Nat) (sessionId : String)
    (authResult : Option String) (deleteGuestDocOk : Bool) (userInfo : UserInfo)
    (s : ManagerState) : ManagerState × Option Profile :=
  match s.currentProfile with
  | none => (s, none)
  | some guestProfile =>
    if guestProfile.type ≠ ProfileType.guest then (s, none)
    else
      match authResult with
      | none => (s, none)
      | some uid =>
        let registeredProfile : Profile :=
          { guestProfile with
            id := uid
            type := ProfileType.registered
            updated_at := now
            personal_info :=
              { guestProfile.personal_info with
                email := some userInfo.email
                name := userInfo.name
                phone := userInfo.phone }
            preferences :=
              { guestProfile.preferences with
                marketing_emails := userInfo.marketing_emails }
            converted_from_guest :=
              some { original_guest_id := guestProfile.id
                     converted_at := now
                     guest_session_id := sessionId } }
        let s1 :=
          if deleteGuestDocOk then
            { s with remote := docDelete s.remote guestProfile.id }
          else s
        let s2 := { s1 with remote := docSet s1.remote uid registeredProfile }
        let s3 := { s2 with cache := docDelete s2.cache (guestProfileKey sessionId) }
        let s4 := { s3 with currentProfile := some registeredProfile }
        let s5 := trackActionS env now sessionId "guest_converted_to_registered"
                    "conversion_stats" s4
        (s5, s5.currentProfile)

end FirebaseProfileManager

/-- State owned by one `OfflineProfileManager` instance: the in-memory
`currentProfile` and `localStorage` (keyed by `offline_profile`). -/
structure OfflineState where
  currentProfile : Option Profile
  storage : List (String × Profile)
deriving DecidableEq, Repr

namespace OfflineProfileManager

/-- Source: `OfflineProfileManager.saveProfile()` (lines 2666-2672), called
with the freshly mutated profile. -/
def saveProfileWith (p : Profile) (s : OfflineState) : OfflineState :=
  { s with storage := docSet s.storage "offline_profile" p }

/-- Source: `OfflineProfileManager.trackAction` at manager level. -/
def trackActionS (env : EnvInfo) (now : Nat) (action : String) (data : String)
    (s : OfflineState) : OfflineState :=
  match s.currentProfile with
  | none => s
  | some p =>
    let p' := trackAction env now action data p
    saveProfileWith p' { s with currentProfile := some p' }

/-- Source: `OfflineProfileManager.trackPageView` at manager level. -/
def trackPageViewS (env : EnvInfo) (now : Nat) (pageName : String) (data : String)
    (s : OfflineState) : OfflineState :=
  match s.currentProfile with
  | none => s
  | some p =>
    let p' := trackPageView env now pageName data p
    saveProfileWith p' { s with currentProfile := some p' }

/-- Source: `OfflineProfileManager.trackProductView` at manager level. -/
def trackProductViewS (now : Nat) (productId : String) (productData : String)
    (s : OfflineState) : OfflineState :=
  match s.currentProfile with
  | none => s
  | some p =>
    let p' := trackProductView now productId productData p
    saveProfileWith p' { s with currentProfile := some p' }

/-- Source: `OfflineProfileManager.addToCart` at manager level. -/
def addToCartS (products : List Product) (now : Nat) (productId : String)
    (quantity : Int) (s : OfflineState) : OfflineState :=
  match s.currentProfile with
  | none => s
  | some p =>
    let p' := addToCart products now productId quantity p
    saveProfileWith p' { s with currentProfile := some p' }

/-- Source: `OfflineProfileManager.removeFromCart` at manager level. -/
def removeFromCartS (products : List Product) (now : Nat) (productId : String)
    (s : OfflineState) : OfflineState :=
  match s.currentProfile with
  | none => s
  | some p =>
    let p' := removeFromCart products now productId p
    saveProfileWith p' { s with currentProfile := some p' }

/-- Source: `OfflineProfileManager.updateCartQuantity` at manager level. -/
def updateCartQuantityS (products : List Product) (now : Nat) (productId : String)
    (quantity : Int) (s : OfflineState) : OfflineState :=
  match s.currentProfile with
  | none => s
  | some p =>
    match p.shopping.cart.items.find? (fun item => item.product_id == productId) with
    | none => s
    | some _ =>
      let p' := updateCartQuantity products now productId quantity p
      saveProfileWith p' { s with currentProfile := some p' }

/-- Source: `OfflineProfileManager.clearCart` at manager level. -/
def clearCartS (now : Nat) (s : OfflineState) : OfflineState :=
  match s.currentProfile with
  | none => s
  | some p =>
    let p' := clearCart now p
    saveProfileWith p' { s with currentProfile := some p' }

/-- Source: `OfflineProfileManager.addToWishlist` at manager level. -/
def addToWishlistS (now : Nat) (productId : String) (productData : String)
    (s : OfflineState) : OfflineState :=
  match s.currentProfile with
  | none => s
  | some p =>
    match p.shopping.wishlist.find? (fun item => item.product_id == productId) with
    | some _ => s
    | none =>
      let p' := addToWishlist now productId productData p
      saveProfileWith p' { s with currentProfile := some p' }

/-- Source: `OfflineProfileManager.removeFromWishlist` at manager level. -/
def removeFromWishlistS (productId : String) (s : OfflineState) : OfflineState :=
  match s.currentProfile with
  | none => s
  | some p =>
    let p' := removeFromWishlist productId p
    saveProfileWith p' { s with currentProfile := some p' }

/-- Source: `OfflineProfileManager.addPurchase` at manager level. -/
def addPurchaseS (now : Nat) (orderData : String) (s : OfflineState) : OfflineState :=
  match s.currentProfile with
  | none => s
  | some p =>
    let p' := addPurchase now orderData p
    saveProfileWith p' { s with currentProfile := some p' }

/-- Source: `OfflineProfileManager.updateProfile` at manager level; returns
`none` (JS `null`) when no profile is current. -/
def updateProfileS (now : Nat) (updates : ProfileUpdates) (s : OfflineState) :
    OfflineState × Option Profile :=
  match s.currentProfile with
  | none => (s, none)
  | some p =>
    let p' := updateProfile now updates p
    (saveProfileWith p' { s with currentProfile := some p' }, some p')

end OfflineProfileManager

/-- One of the four cart mutations of the shared contract, with the instant
at which it is issued. -/
inductive CartOp where
  | add (now : Nat) (productId : String) (quantity : Int)
  | remove (now : Nat) (productId : String)
  | update (now : Nat) (productId : String) (quantity : Int)
  | clear (now : Nat)
deriving DecidableEq, Repr

/-- Apply one cart mutation through the Firebase Profile Manager. -/
def applyCartOp (products : List Product) (op : CartOp) (p : Profile) : Profile :=
  match op with
  | CartOp.add now productId quantity =>
    FirebaseProfileManager.addToCart products now productId quantity p
  | CartOp.remove now productId =>
    FirebaseProfileManager.removeFromCart products now productId p
  | CartOp.update now productId quantity =>
    FirebaseProfileManager.updateCartQuantity products now productId quantity p
  | CartOp.clear now =>
    FirebaseProfileManager.clearCart now p

/-- Apply a sequence of cart mutations in issue order. -/
def applyCartOps (products : List Product) (ops : List CartOp) (p : Profile) : Profile :=
  ops.foldl (fun q op => applyCartOp products op q) p

/-- One call of any mutating operation of the shared Profile Manager
contract, with its arguments. -/
inductive ProfileOp where
  | updateProfileOp (now : Nat) (updates : ProfileUpdates)
  | trackActionOp (env : EnvInfo) (now : Nat) (action : String) (data : String)
  | trackPageViewOp (env : EnvInfo) (now : Nat) (pageName : String) (data : String)
  | trackProductViewOp (now : Nat) (productId : String) (productData : String)
  | addToCartOp (now : Nat) (productId : String) (quantity : Int)
  | removeFromCartOp (now : Nat) (productId : String)
  | updateCartQuantityOp (now : Nat) (productId : String) (quantity : Int)
  | clearCartOp (now : Nat)
  | addToWishlistOp (now : Nat) (productId : String) (productData : String)
  | removeFromWishlistOp (productId : String)
  | addPurchaseOp (now : Nat) (orderData : String)
deriving DecidableEq, Repr

/-- Apply one mutating operation (in-memory effect) through the Firebase
Profile Manager. -/
def applyProfileOp (products : List Product) (op : ProfileOp) (p : Profile) : Profile :=
  match op with
  | ProfileOp.updateProfileOp now updates =>
    FirebaseProfileManager.updateProfile now updates p
  | ProfileOp.trackActionOp env now action data =>
    FirebaseProfileManager.trackAction env now action data p
  | ProfileOp.trackPageViewOp env now pageName data =>
    FirebaseProfileManager.trackPageView env now pageName data p
  | ProfileOp.trackProductViewOp now productId productData =>
    FirebaseProfileManager.trackProductView now productId productData p
  | ProfileOp.addToCartOp now productId quantity =>
    FirebaseProfileManager.addToCart products now productId quantity p
  | ProfileOp.removeFromCartOp now productId =>
    FirebaseProfileManager.removeFromCart products now productId p
  | ProfileOp.updateCartQuantityOp now productId quantity =>
    FirebaseProfileManager.updateCartQuantity products now productId quantity p
  | ProfileOp.clearCartOp now =>
    FirebaseProfileManager.clearCart now p
  | ProfileOp.addToWishlistOp now productId productData =>
    FirebaseProfileManager.addToWishlist now productId productData p
  | ProfileOp.removeFromWishlistOp productId =>
    FirebaseProfileManager.removeFromWishlist productId p
  | ProfileOp.addPurchaseOp now orderData =>
    FirebaseProfileManager.addPurchase now orderData p

/-- Apply a sequence of mutating operations in issue order. -/
def applyProfileOps (products : List Product) (ops : List ProfileOp) (p : Profile) :
    Profile :=
  ops.foldl (fun q op => applyProfileOp products op q) p

/-- Arguments of one `trackAction(action, data)` call. -/
structure TrackCall where
  env : EnvInfo
  now : Nat
  action : String
  data : String
deriving DecidableEq, Repr

/-- The analytics event a `trackAction` call constructs and appends. -/
def TrackCall.event (c : TrackCall) : AnalyticsEvent :=
  { action := c.action, data := c.data, timestamp := c.now,
    page_url := c.env.page_url, user_agent := c.env.user_agent }

/-- A sequence of `trackAction` calls in issue order (Firebase variant). -/
def trackActions (calls : List TrackCall) (p : Profile) : Profile :=
  calls.foldl (fun q c => FirebaseProfileManager.trackAction c.env c.now c.action c.data q) p

/-- Specification-side contribution of one cart line: catalog price times
quantity when the `product_id` resolves in the catalog, nothing otherwise. -/
def catalogContribution (products : List Product) (item : CartItem) : ℚ :=
  match products.find? (fun p => p.id == item.product_id) with
  | some p => p.price * (item.quantity : ℚ)
  | none => 0

/-- Specification-side cart total: the sum, over all cart items, of the
catalog contribution (spec wording: `Σ(catalog.price(item.product_id) ×
item.quantity)` over items still present in the catalog). -/
def cartSpecTotal (products : List Product) (items : List CartItem) : ℚ :=
  (items.map (catalogContribution products)).sum

/-- The total invariant of claim C3 for one profile. -/
def CartTotalInv (products : List Product) (p : Profile) : Prop :=
  p.shopping.cart.total = cartSpecTotal products p.shopping.cart.items

instance (products : List Product) (p : Profile) : Decidable (CartTotalInv products p) := by
  unfold CartTotalInv; infer_instance

/-- Uniqueness of `product_id` across cart lines. -/
def CartUnique (p : Profile) : Prop :=
  (p.shopping.cart.items.map (fun item => item.product_id)).Nodup

instance (p : Profile) : Decidable (CartUnique p) := by
  unfold CartUnique; infer_instance

/-- Fixture: an environment fingerprint for concrete witnesses. -/
def exampleEnv : EnvInfo :=
  { user_agent := "ua", screen_resolution := "800x600", timezone := "UTC",
    language := "en", referrer := "direct", page_url := "https:example" }

/-- Fixture: a two-product catalog with integral prices. -/
def exampleCatalog : List Product :=
  [{ id := "sku-1", price := 3 }, { id := "sku-2", price := 5 }]

/-- Fixture: a fresh guest profile. -/
def exampleGuest : Profile :=
  createBaseProfile exampleEnv 0 "sess1" "guest_sess1" ProfileType.guest

/-- Fixture: a registered profile with one cart line. -/
def exampleRegistered : Profile :=
  FirebaseProfileManager.addToCart exampleCatalog 1 "sku-2" 1
    { createBaseProfile exampleEnv 0 "sess1" "uid1" ProfileType.registered with
      id := "uid1" }

/-- Fixture: a manager state whose current profile is a guest. -/
def exampleGuestState : ManagerState :=
  { currentProfile := some exampleGuest
    remote := [("guest_sess1", exampleGuest)]
    cache := [(guestProfileKey "sess1", exampleGuest)] }

/-- Fixture: a manager state whose current profile is registered and whose
Local Cache holds no guest entry (the state the merge paths leave behind). -/
def exampleRegisteredState : ManagerState :=
  { currentProfile := some exampleRegistered
    remote := [("uid1", exampleRegistered)]
    cache := [] }

/-- Fixture: the `userInfo` object of a signup attempt. -/
def exampleUserInfo : UserInfo :=
  { email := "a@b.com", name := some "Ada", phone := none, marketing_emails := false }

/-- Fixture: a Firebase manager state with no current profile. -/
def exampleNullState : ManagerState :=
  { currentProfile := none, remote := [("uid1", exampleRegistered)], cache := [] }

/-- Fixture: an offline manager state with no current profile. -/
def exampleOfflineNullState : OfflineState :=
  { currentProfile := none, storage := [] }

theorem sliceLast_of_le {n : Nat} {xs : List α} (h : xs.length ≤ n) :
    sliceLast n xs = xs := by
  unfold sliceLast
  rw [Nat.sub_eq_zero_of_le h, List.drop_zero]

theorem length_sliceLast (n : Nat) (xs : List α) :
    (sliceLast n xs).length = min n xs.length := by
  unfold sliceLast
  rw [List.length_drop]
  omega

theorem sliceLast_append_of_le {n : Nat} (xs : List α) {ys : List α}
    (h : n ≤ ys.length) : sliceLast n (xs ++ ys) = sliceLast n ys := by
  unfold sliceLast
  rw [List.length_append,
    show xs.length + ys.length - n = xs.length + (ys.length - n) by omega,
    List.drop_append]

theorem sliceLast_sliceLast_append (n : Nat) (xs ys : List α) :
    sliceLast n (sliceLast n xs ++ ys) = sliceLast n (xs ++ ys) := by
  by_cases h : xs.length ≤ n
  · rw [sliceLast_of_le h]
  · have hlen : n ≤ (sliceLast n xs ++ ys).length := by
      rw [List.length_append, length_sliceLast]
      omega
    have hsplit : (xs.take (xs.length - n) ++ sliceLast n xs) ++ ys = xs ++ ys := by
      rw [show sliceLast n xs = xs.drop (xs.length - n) from rfl, List.take_append_drop]
    rw [← hsplit, List.append_assoc, sliceLast_append_of_le _ hlen]

theorem clamp_eq_sliceLast (n : Nat) (xs : List α) :
    (if xs.length > n then sliceLast n xs else xs) = sliceLast n xs := by
  by_cases h : xs.length > n
  · rw [if_pos h]
  · rw [if_neg h, sliceLast_of_le (Nat.le_of_not_lt h)]

theorem firebase_trackAction_events (env : EnvInfo) (now : Nat)
    (action data : String) (p : Profile) :
    (FirebaseProfileManager.trackAction env now action data p).analytics.events =
      sliceLast 1000 (p.analytics.events ++
        [{ action := action, data := data, timestamp := now,
           page_url := env.page_url, user_agent := env.user_agent }]) := by
  simp [FirebaseProfileManager.trackAction, clamp_eq_sliceLast]
  intro h
  refine (sliceLast_of_le ?_).symm
  rw [List.length_append]
  simp
  omega

theorem offline_trackAction_events (env : EnvInfo) (now : Nat)
    (action data : String) (p : Profile) :
    (OfflineProfileManager.trackAction env now action data p).analytics.events =
      sliceLast 1000 (p.analytics.events ++
        [{ action := action, data := data, timestamp := now,
           page_url := env.page_url, user_agent := env.user_agent }]) := by
  simp [OfflineProfileManager.trackAction, clamp_eq_sliceLast]
  intro h
  refine (sliceLast_of_le ?_).symm
  rw [List.length_append]
  simp
  omega

theorem trackActions_events_aux (calls : List TrackCall) (p : Profile)
    (h : p.analytics.events.length ≤ 1000) :
    (trackActions calls p).analytics.events =
      sliceLast 1000 (p.analytics.events ++ calls.map TrackCall.event) := by
  induction calls generalizing p with
  | nil =>
    simp [trackActions, sliceLast_of_le h]
  | cons c rest ih =>
    have hstep := firebase_trackAction_events c.env c.now c.action c.data p
    have hlen : (FirebaseProfileManager.trackAction c.env c.now c.action c.data
        p).analytics.events.length ≤ 1000 := by
      rw [hstep, length_sliceLast]
      omega
    have : trackActions (c :: rest) p =
        trackActions rest (FirebaseProfileManager.trackAction c.env c.now c.action c.data p) := by
      simp [trackActions]
    rw [this, ih _ hlen, hstep, sliceLast_sliceLast_append, List.append_assoc]
    simp [TrackCall.event]

theorem trackActions_events (c : TrackCall) (calls : List TrackCall) (p : Profile) :
    (trackActions (c :: calls) p).analytics.events =
      sliceLast 1000 (p.analytics.events ++ (c :: calls).map TrackCall.event) := by
  have hstep := firebase_trackAction_events c.env c.now c.action c.data p
  have hlen : (FirebaseProfileManager.trackAction c.env c.now c.action c.data
      p).analytics.events.length ≤ 1000 := by
    rw [hstep, length_sliceLast]
    omega
  have hfold : trackActions (c :: calls) p =
      trackActions calls (FirebaseProfileManager.trackAction c.env c.now c.action c.data p) := by
    simp [trackActions]
  rw [hfold, trackActions_events_aux _ _ hlen, hstep, sliceLast_sliceLast_append,
    List.append_assoc]
  simp [TrackCall.event]

/-- C7: each `trackAction` call leaves `analytics.events` with at most 1000
entries, dropping the oldest first (the retained list is the last-1000 slice
of the old events plus the new one, in both manager variants); and after a
sequence of more than 1000 `trackAction` calls, `analytics.events` has
exactly 1000 entries and they are the most recent 1000 events appended. -/
theorem trackAction_ring_buffer :
    (∀ (env : EnvInfo) (now : Nat) (action data : String) (p : Profile),
      (FirebaseProfileManager.trackAction env now action data p).analytics.events.length ≤ 1000 ∧
      (FirebaseProfileManager.trackAction env now action data p).analytics.events =
        sliceLast 1000 (p.analytics.events ++
          [{ action := action, data := data, timestamp := now,
             page_url := env.page_url, user_agent := env.user_agent }]) ∧
      (OfflineProfileManager.trackAction env now action data p).analytics.events =
        sliceLast 1000 (p.analytics.events ++
          [{ action := action, data := data, timestamp := now,
             page_url := env.page_url, user_agent := env.user_agent }])) ∧
    (∀ (calls : List TrackCall) (p : Profile), calls.length > 1000 →
      (trackActions calls p).analytics.events =
        sliceLast 1000 (calls.map TrackCall.event) ∧
      (trackActions calls p).analytics.events.length = 1000) := by
  constructor
  · intro env now action data p
    refine ⟨?_, firebase_trackAction_events env now action data p,
      offline_trackAction_events env now action data p⟩
    rw [firebase_trackAction_events env now action data p, length_sliceLast]
    omega
  · intro calls p hlen
    match calls with
    | [] => simp at hlen
    | c :: rest =>
      have hmap : 1000 ≤ ((c :: rest).map TrackCall.event).length := by
        rw [List.length_map]
        omega
      have hev := trackActions_events c rest p
      rw [sliceLast_append_of_le _ hmap] at hev
      refine ⟨hev, ?_⟩
      rw [hev, length_sliceLast, List.length_map]
      omega

/-- C7 witness: a concrete run of 1001 `trackAction` calls on the example
guest profile retains exactly the most recent 1000 events. -/
theorem trackAction_ring_buffer_holds :
    (List.replicate 1001 (TrackCall.mk exampleEnv 3 "act" "d")).length > 1000 ∧
    (trackActions (List.replicate 1001 (TrackCall.mk exampleEnv 3 "act" "d"))
        exampleGuest).analytics.events.length = 1000 :=
  ⟨by rw [List.length_replicate]; omega,
   (trackAction_ring_buffer.2 (List.replicate 1001 (TrackCall.mk exampleEnv 3 "act" "d"))
     exampleGuest (by rw [List.length_replicate]; omega)).2⟩

theorem itemsTotal_foldl (products : List Product) (items : List CartItem)
    (init : ℚ) :
    items.foldl
      (fun acc item =>
        match products.find? (fun p => p.id == item.product_id) with
        | some p => acc + p.price * (item.quantity : ℚ)
        | none => acc)
      init
    = init + cartSpecTotal products items := by
  induction items generalizing init with
  | nil => simp [cartSpecTotal]
  | cons it rest ih =>
    rw [List.foldl_cons, ih]
    cases hf : products.find? (fun p => p.id == it.product_id) with
    | none => simp [cartSpecTotal, catalogContribution, hf]
    | some pr =>
      simp only [cartSpecTotal, catalogContribution, hf, List.map_cons, List.sum_cons]
      ring

theorem itemsTotal_eq_spec (products : List Product) (items : List CartItem) :
    FirebaseProfileManager.itemsTotal products items = cartSpecTotal products items := by
  unfold FirebaseProfileManager.itemsTotal
  rw [itemsTotal_foldl]
  ring

theorem updateCartTotal_items (products : List Product) (now : Nat) (p : Profile) :
    (FirebaseProfileManager.updateCartTotal products now p).shopping.cart.items =
      p.shopping.cart.items := by
  simp [FirebaseProfileManager.updateCartTotal]

theorem updateCartTotal_inv (products : List Product) (now : Nat) (p : Profile) :
    CartTotalInv products (FirebaseProfileManager.updateCartTotal products now p) := by
  unfold CartTotalInv
  rw [updateCartTotal_items]
  simp [FirebaseProfileManager.updateCartTotal, itemsTotal_eq_spec]

theorem addToCart_inv (products : List Product) (now : Nat) (productId : String)
    (quantity : Int) (p : Profile) :
    CartTotalInv products (FirebaseProfileManager.addToCart products now productId quantity p) := by
  unfold FirebaseProfileManager.addToCart
  cases hf : p.shopping.cart.items.find? (fun item => item.product_id == productId) <;>
    simp only [hf] <;> exact updateCartTotal_inv _ _ _

theorem removeFromCart_inv (products : List Product) (now : Nat) (productId : String)
    (p : Profile) :
    CartTotalInv products (FirebaseProfileManager.removeFromCart products now productId p) := by
  unfold FirebaseProfileManager.removeFromCart
  exact updateCartTotal_inv _ _ _

theorem clearCart_inv (products : List Product) (now : Nat) (p : Profile) :
    CartTotalInv products (FirebaseProfileManager.clearCart now p) := by
  unfold CartTotalInv FirebaseProfileManager.clearCart
  simp [cartSpecTotal]

theorem updateCartQuantity_inv (products : List Product) (now : Nat)
    (productId : String) (quantity : Int) (p : Profile)
    (h : CartTotalInv products p) :
    CartTotalInv products
      (FirebaseProfileManager.updateCartQuantity products now productId quantity p) := by
  unfold FirebaseProfileManager.updateCartQuantity
  cases hf : p.shopping.cart.items.find? (fun item => item.product_id == productId) with
  | none => simpa [hf] using h
  | some it =>
    simp only [hf]
    by_cases hq : quantity ≤ 0
    · rw [if_pos hq]
      exact removeFromCart_inv _ _ _ _
    · rw [if_neg hq]
      exact updateCartTotal_inv _ _ _

theorem applyCartOp_inv (products : List Product) (op : CartOp) (p : Profile)
    (h : CartTotalInv products p) :
    CartTotalInv products (applyCartOp products op p) := by
  cases op with
  | add now productId quantity => exact addToCart_inv products now productId quantity p
  | remove now productId => exact removeFromCart_inv products now productId p
  | update now productId quantity => exact updateCartQuantity_inv products now productId quantity p h
  | clear now => exact clearCart_inv products now p

/-- C3: after any sequence of cart mutations (`addToCart`, `removeFromCart`,
`updateCartQuantity`, `clearCart`) applied with a fixed product catalog to a
profile satisfying the total invariant, `cart.total` equals the sum, over the
cart items whose `product_id` resolves in the catalog, of catalog price times
quantity; items absent from the catalog contribute nothing (their
specification-side contribution is 0). -/
theorem cart_total_invariant (products : List Product) (ops : List CartOp)
    (p : Profile) (h : CartTotalInv products p) :
    (applyCartOps products ops p).shopping.cart.total =
      cartSpecTotal products (applyCartOps products ops p).shopping.cart.items := by
  induction ops generalizing p with
  | nil => exact h
  | cons op rest ih =>
    have hstep : applyCartOps products (op :: rest) p =
        applyCartOps products rest (applyCartOp products op p) := by
      simp [applyCartOps]
    rw [hstep]
    exact ih _ (applyCartOp_inv products op p h)

/-- C3 witness: a concrete three-mutation run starting from the fresh example
guest profile (whose empty cart satisfies the invariant). -/
theorem cart_total_invariant_holds :
    CartTotalInv exampleCatalog exampleGuest ∧
    (applyCartOps exampleCatalog
        [CartOp.add 1 "sku-1" 2, CartOp.add 2 "nonexistent" 4, CartOp.update 3 "sku-1" 5]
        exampleGuest).shopping.cart.total =
      cartSpecTotal exampleCatalog
        (applyCartOps exampleCatalog
          [CartOp.add 1 "sku-1" 2, CartOp.add 2 "nonexistent" 4, CartOp.update 3 "sku-1" 5]
          exampleGuest).shopping.cart.items :=
  ⟨by decide,
   cart_total_invariant exampleCatalog
     [CartOp.add 1 "sku-1" 2, CartOp.add 2 "nonexistent" 4, CartOp.update 3 "sku-1" 5]
     exampleGuest (by decide)⟩

theorem bumpFirst_map_product_id (pid : String) (qty : Int) (now : Nat) :
    ∀ items : List CartItem,
      (FirebaseProfileManager.bumpFirst pid qty now items).map (fun it => it.product_id)
        = items.map (fun it => it.product_id) := by
  intro items
  induction items with
  | nil => rfl
  | cons it rest ih =>
    unfold FirebaseProfileManager.bumpFirst
    by_cases h : it.product_id == pid
    · simp [h]
    · simp only [Bool.not_eq_true] at h
      simp [h, ih]

theorem setQuantityFirst_map_product_id (pid : String) (qty : Int) (now : Nat) :
    ∀ items : List CartItem,
      (FirebaseProfileManager.setQuantityFirst pid qty now items).map (fun it => it.product_id)
        = items.map (fun it => it.product_id) := by
  intro items
  induction items with
  | nil => rfl
  | cons it rest ih =>
    unfold FirebaseProfileManager.setQuantityFirst
    by_cases h : it.product_id == pid
    · simp [h]
    · simp only [Bool.not_eq_true] at h
      simp [h, ih]

theorem bump_map_id_of_no_match (pid : String) (qty : Int) (now : Nat) :
    ∀ items : List CartItem, (∀ it ∈ items, it.product_id ≠ pid) →
      items.map (fun j =>
        if j.product_id = pid then
          { j with quantity := j.quantity + qty, updated_at := now }
        else j) = items := by
  intro items
  induction items with
  | nil => intro _; rfl
  | cons it rest ih =>
    intro h
    rw [List.map_cons, if_neg (h it (List.mem_cons_self it rest)),
      ih (fun j hj => h j (List.mem_cons_of_mem it hj))]

theorem bumpFirst_eq_map (pid : String) (qty : Int) (now : Nat) :
    ∀ items : List CartItem, (items.map (fun it => it.product_id)).Nodup →
      FirebaseProfileManager.bumpFirst pid qty now items =
        items.map (fun j =>
          if j.product_id = pid then
            { j with quantity := j.quantity + qty, updated_at := now }
          else j) := by
  intro items
  induction items with
  | nil => intro _; rfl
  | cons it rest ih =>
    intro hnd
    rw [List.map_cons, List.nodup_cons] at hnd
    obtain ⟨hnotin, hrest⟩ := hnd
    unfold FirebaseProfileManager.bumpFirst
    by_cases h : it.product_id = pid
    · have hb : (it.product_id == pid) = true := by simp [h]
      have hno : ∀ j ∈ rest, j.product_id ≠ pid := by
        intro j hj heq
        exact hnotin (h ▸ heq ▸ List.mem_map_of_mem (fun x => x.product_id) hj)
      rw [List.map_cons, if_pos h]
      simp only [hb, if_true]
      rw [bump_map_id_of_no_match pid qty now rest hno]
    · have hb : (it.product_id == pid) = false := by simp [h]
      rw [List.map_cons, if_neg h]
      simp only [hb, Bool.false_eq_true, if_false]
      rw [ih hrest]

theorem bumpFirst_cons (pid : String) (qty : Int) (now : Nat) (it : CartItem)
    (rest : List CartItem) :
    FirebaseProfileManager.bumpFirst pid qty now (it :: rest) =
      if it.product_id == pid then
        { it with quantity := it.quantity + qty, updated_at := now } :: rest
      else it :: FirebaseProfileManager.bumpFirst pid qty now rest := rfl

theorem bumpFirst_append_no_match (pid : String) (qty : Int) (now : Nat) :
    ∀ xs ys : List CartItem, (∀ it ∈ xs, (it.product_id == pid) = false) →
      FirebaseProfileManager.bumpFirst pid qty now (xs ++ ys) =
        xs ++ FirebaseProfileManager.bumpFirst pid qty now ys := by
  intro xs ys
  induction xs with
  | nil => intro _; rfl
  | cons it rest ih =>
    intro h
    rw [List.cons_append, bumpFirst_cons]
    rw [h it (List.mem_cons_self it rest)]
    simp only [Bool.false_eq_true, if_false, List.cons_append, List.cons.injEq, true_and]
    exact ih (fun j hj => h j (List.mem_cons_of_mem it hj))

theorem addToCart_items_of_absent (products : List Product) (now : Nat)
    (productId : String) (quantity : Int) (p : Profile)
    (h : p.shopping.cart.items.find? (fun it => it.product_id == productId) = none) :
    (FirebaseProfileManager.addToCart products now productId quantity p).shopping.cart.items =
      p.shopping.cart.items ++
        [{ product_id := productId, quantity := quantity,
           added_at := now, updated_at := now }] := by
  simp only [FirebaseProfileManager.addToCart, h]
  rw [updateCartTotal_items]

theorem addToCart_items_of_found (products : List Product) (now : Nat)
    (productId : String) (quantity : Int) (p : Profile) (it : CartItem)
    (h : p.shopping.cart.items.find? (fun j => j.product_id == productId) = some it) :
    (FirebaseProfileManager.addToCart products now productId quantity p).shopping.cart.items =
      FirebaseProfileManager.bumpFirst productId quantity now p.shopping.cart.items := by
  simp only [FirebaseProfileManager.addToCart, h]
  rw [updateCartTotal_items]

theorem addToCart_items_of_present (products : List Product) (now : Nat)
    (productId : String) (quantity : Int) (p : Profile) (hu : CartUnique p)
    (h : ∃ it ∈ p.shopping.cart.items, it.product_id = productId) :
    (FirebaseProfileManager.addToCart products now productId quantity p).shopping.cart.items =
      p.shopping.cart.items.map (fun j =>
        if j.product_id = productId then
          { j with quantity := j.quantity + quantity, updated_at := now }
        else j) := by
  have hsome : (p.shopping.cart.items.find? (fun it => it.product_id == productId)).isSome := by
    rw [List.find?_isSome]
    obtain ⟨it, hmem, heq⟩ := h
    exact ⟨it, hmem, by simp [heq]⟩
  cases hf : p.shopping.cart.items.find? (fun it => it.product_id == productId) with
  | none => rw [hf] at hsome; simp at hsome
  | some it =>
    rw [addToCart_items_of_found products now productId quantity p it hf]
    exact bumpFirst_eq_map productId quantity now p.shopping.cart.items hu

theorem removeFromCart_items (products : List Product) (now : Nat)
    (productId : String) (p : Profile) :
    (FirebaseProfileManager.removeFromCart products now productId p).shopping.cart.items =
      p.shopping.cart.items.filter (fun item => !(item.product_id == productId)) := by
  simp only [FirebaseProfileManager.removeFromCart]
  rw [updateCartTotal_items]

theorem updateCartQuantity_items_pos (products : List Product) (now : Nat)
    (productId : String) (quantity : Int) (p : Profile) (it : CartItem)
    (hf : p.shopping.cart.items.find? (fun j => j.product_id == productId) = some it)
    (hq : ¬quantity ≤ 0) :
    (FirebaseProfileManager.updateCartQuantity products now productId quantity p).shopping.cart.items =
      FirebaseProfileManager.setQuantityFirst productId quantity now p.shopping.cart.items := by
  simp only [FirebaseProfileManager.updateCartQuantity, hf, if_neg hq]
  rw [updateCartTotal_items]

theorem clearCart_cart (now : Nat) (p : Profile) :
    (FirebaseProfileManager.clearCart now p).shopping.cart =
      { items := [], total := 0, updated_at := some now } := by
  simp [FirebaseProfileManager.clearCart]

theorem addToCart_unique (products : List Product) (now : Nat) (productId : String)
    (quantity : Int) (p : Profile) (h : CartUnique p) :
    CartUnique (FirebaseProfileManager.addToCart products now productId quantity p) := by
  unfold CartUnique at h ⊢
  cases hf : p.shopping.cart.items.find? (fun it => it.product_id == productId) with
  | some it =>
    rw [addToCart_items_of_found products now productId quantity p it hf,
      bumpFirst_map_product_id]
    exact h
  | none =>
    rw [addToCart_items_of_absent products now productId quantity p hf]
    have hno : ∀ it ∈ p.shopping.cart.items, ¬(it.product_id == productId) = true :=
      List.find?_eq_none.mp hf
    have hpid : productId ∉ p.shopping.cart.items.map (fun it => it.product_id) := by
      intro hmem
      obtain ⟨it, hit, heq⟩ := List.mem_map.mp hmem
      exact hno it hit (by simp [heq])
    rw [List.map_append]
    simp [List.nodup_append, h, hpid]

theorem removeFromCart_unique (products : List Product) (now : Nat)
    (productId : String) (p : Profile) (h : CartUnique p) :
    CartUnique (FirebaseProfileManager.removeFromCart products now productId p) := by
  unfold CartUnique at h ⊢
  rw [removeFromCart_items]
  exact ((List.filter_sublist p.shopping.cart.items).map
    (fun it : CartItem => it.product_id)).nodup h

theorem updateCartQuantity_unique (products : List Product) (now : Nat)
    (productId : String) (quantity : Int) (p : Profile) (h : CartUnique p) :
    CartUnique (FirebaseProfileManager.updateCartQuantity products now productId quantity p) := by
  cases hf : p.shopping.cart.items.find? (fun item => item.product_id == productId) with
  | none =>
    unfold FirebaseProfileManager.updateCartQuantity
    rw [hf]
    exact h
  | some it =>
    by_cases hq : quantity ≤ 0
    · have : FirebaseProfileManager.updateCartQuantity products now productId quantity p =
          FirebaseProfileManager.removeFromCart products now productId p := by
        simp only [FirebaseProfileManager.updateCartQuantity, hf, if_pos hq]
      rw [this]
      exact removeFromCart_unique products now productId p h
    · unfold CartUnique at h ⊢
      rw [updateCartQuantity_items_pos products now productId quantity p it hf hq,
        setQuantityFirst_map_product_id]
      exact h

theorem applyProfileOp_unique (products : List Product) (op : ProfileOp)
    (p : Profile) (h : CartUnique p) : CartUnique (applyProfileOp products op p) := by
  cases op with
  | updateProfileOp now updates =>
    unfold CartUnique at h ⊢
    simpa [applyProfileOp, FirebaseProfileManager.updateProfile] using h
  | trackActionOp env now action data =>
    unfold CartUnique at h ⊢
    simpa [applyProfileOp, FirebaseProfileManager.trackAction] using h
  | trackPageViewOp env now pageName data =>
    unfold CartUnique at h ⊢
    simpa [applyProfileOp, FirebaseProfileManager.trackPageView] using h
  | trackProductViewOp now productId productData =>
    unfold CartUnique at h ⊢
    simpa [applyProfileOp, FirebaseProfileManager.trackProductView] using h
  | addToCartOp now productId quantity =>
    exact addToCart_unique products now productId quantity p h
  | removeFromCartOp now productId =>
    exact removeFromCart_unique products now productId p h
  | updateCartQuantityOp now productId quantity =>
    exact updateCartQuantity_unique products now productId quantity p h
  | clearCartOp now =>
    unfold CartUnique
    simp [applyProfileOp, FirebaseProfileManager.clearCart]
  | addToWishlistOp now productId productData =>
    unfold CartUnique at h ⊢
    unfold applyProfileOp FirebaseProfileManager.addToWishlist
    cases hf : p.shopping.wishlist.find? (fun item => item.product_id == productId) <;>
      simpa [hf] using h
  | removeFromWishlistOp productId =>
    unfold CartUnique at h ⊢
    simpa [applyProfileOp, FirebaseProfileManager.removeFromWishlist] using h
  | addPurchaseOp now orderData =>
    unfold CartUnique
    simp [applyProfileOp, FirebaseProfileManager.addPurchase, FirebaseProfileManager.clearCart]

/-- C4: `addToCart` appends exactly one new line (with `added_at` and
`updated_at` set to now) when no line with that `product_id` exists, and
otherwise rewrites the existing line in place, incrementing its quantity and
bumping its `updated_at`; every mutating operation preserves uniqueness of
`product_id` across cart lines (and freshly created profiles start unique),
so `cart.items` always has a unique `product_id` per entry; and two
`addToCart(p, 1)` calls on a cart without `p` yield one line with quantity
2, not two lines. -/
theorem addToCart_line_semantics :
    (∀ (products : List Product) (now : Nat) (productId : String) (quantity : Int)
       (p : Profile),
      p.shopping.cart.items.find? (fun it => it.product_id == productId) = none →
      (FirebaseProfileManager.addToCart products now productId quantity p).shopping.cart.items =
        p.shopping.cart.items ++
          [{ product_id := productId, quantity := quantity,
             added_at := now, updated_at := now }]) ∧
    (∀ (products : List Product) (now : Nat) (productId : String) (quantity : Int)
       (p : Profile), CartUnique p →
      (∃ it ∈ p.shopping.cart.items, it.product_id = productId) →
      (FirebaseProfileManager.addToCart products now productId quantity p).shopping.cart.items =
        p.shopping.cart.items.map (fun j =>
          if j.product_id = productId then
            { j with quantity := j.quantity + quantity, updated_at := now }
          else j)) ∧
    (∀ (products : List Product) (op : ProfileOp) (p : Profile),
      CartUnique p → CartUnique (applyProfileOp products op p)) ∧
    (∀ (env : EnvInfo) (now : Nat) (sessionId profileId : String)
       (profileType : ProfileType),
      CartUnique (createBaseProfile env now sessionId profileId profileType)) ∧
    (∀ (products : List Product) (now1 now2 : Nat) (productId : String) (p : Profile),
      p.shopping.cart.items.find? (fun it => it.product_id == productId) = none →
      (FirebaseProfileManager.addToCart products now2 productId 1
        (FirebaseProfileManager.addToCart products now1 productId 1 p)).shopping.cart.items =
        p.shopping.cart.items ++
          [{ product_id := productId, quantity := 2,
             added_at := now1, updated_at := now2 }]) := by
  refine ⟨addToCart_items_of_absent, addToCart_items_of_present,
    applyProfileOp_unique, fun env now sessionId profileId profileType => by
      unfold CartUnique createBaseProfile
      simp, ?_⟩
  intro products now1 now2 productId p h
  have h1 := addToCart_items_of_absent products now1 productId 1 p h
  have hno : ∀ it ∈ p.shopping.cart.items, (it.product_id == productId) = false := by
    intro it hit
    have := List.find?_eq_none.mp h it hit
    simpa using this
  have hfind2 : (FirebaseProfileManager.addToCart products now1 productId 1
      p).shopping.cart.items.find? (fun it => it.product_id == productId) =
      some { product_id := productId, quantity := 1, added_at := now1, updated_at := now1 } := by
    rw [h1, List.find?_append, List.find?_eq_none.mpr (fun it hit => by simp [hno it hit])]
    simp
  rw [addToCart_items_of_found products now2 productId 1 _ _ hfind2, h1,
    bumpFirst_append_no_match productId 1 now2 p.shopping.cart.items _ hno,
    bumpFirst_cons]
  simp

/-- C4 witness: adding `sku-1` twice to the fresh example guest profile
yields one cart line with quantity 2. -/
theorem addToCart_line_semantics_holds :
    (FirebaseProfileManager.addToCart exampleCatalog 2 "sku-1" 1
      (FirebaseProfileManager.addToCart exampleCatalog 1 "sku-1" 1
        exampleGuest)).shopping.cart.items =
      [{ product_id := "sku-1", quantity := 2, added_at := 1, updated_at := 2 }] :=
  addToCart_line_semantics.2.2.2.2 exampleCatalog 1 2 "sku-1" exampleGuest (by decide)

theorem updateCartTotal_abandoned (products : List Product) (now : Nat) (p : Profile) :
    (FirebaseProfileManager.updateCartTotal products now p).shopping.abandoned_carts =
      p.shopping.abandoned_carts := by
  simp [FirebaseProfileManager.updateCartTotal]

theorem clearCart_abandoned_of_nonempty (now : Nat) (p : Profile)
    (h : p.shopping.cart.items ≠ []) :
    (FirebaseProfileManager.clearCart now p).shopping.abandoned_carts =
      sliceLast 10 (p.shopping.abandoned_carts ++
        [{ items := p.shopping.cart.items, total := p.shopping.cart.total,
           updated_at := p.shopping.cart.updated_at, abandoned_at := now }]) := by
  have hlen : p.shopping.cart.items.length > 0 := List.length_pos.mpr h
  simp only [FirebaseProfileManager.clearCart, if_pos hlen]
  simp [clamp_eq_sliceLast]
  intro h2
  refine (sliceLast_of_le ?_).symm
  rw [List.length_append]
  simp
  omega

theorem clearCart_abandoned_of_empty (now : Nat) (p : Profile)
    (h : p.shopping.cart.items = []) :
    (FirebaseProfileManager.clearCart now p).shopping.abandoned_carts =
      p.shopping.abandoned_carts := by
  have hlen : ¬p.shopping.cart.items.length > 0 := by simp [h]
  simp only [FirebaseProfileManager.clearCart, if_neg hlen]

theorem clearCart_abandoned_le (now : Nat) (p : Profile)
    (h : p.shopping.abandoned_carts.length ≤ 10) :
    (FirebaseProfileManager.clearCart now p).shopping.abandoned_carts.length ≤ 10 := by
  by_cases he : p.shopping.cart.items = []
  · rw [clearCart_abandoned_of_empty now p he]
    exact h
  · rw [clearCart_abandoned_of_nonempty now p he, length_sliceLast]
    omega

theorem addToCart_abandoned (products : List Product) (now : Nat)
    (productId : String) (quantity : Int) (p : Profile) :
    (FirebaseProfileManager.addToCart products now productId quantity p).shopping.abandoned_carts =
      p.shopping.abandoned_carts := by
  cases hf : p.shopping.cart.items.find? (fun it => it.product_id == productId) <;>
    · simp only [FirebaseProfileManager.addToCart, hf]
      rw [updateCartTotal_abandoned]

theorem removeFromCart_abandoned (products : List Product) (now : Nat)
    (productId : String) (p : Profile) :
    (FirebaseProfileManager.removeFromCart products now productId p).shopping.abandoned_carts =
      p.shopping.abandoned_carts := by
  simp only [FirebaseProfileManager.removeFromCart]
  rw [updateCartTotal_abandoned]

theorem updateCartQuantity_abandoned (products : List Product) (now : Nat)
    (productId : String) (quantity : Int) (p : Profile) :
    (FirebaseProfileManager.updateCartQuantity products now productId quantity p).shopping.abandoned_carts =
      p.shopping.abandoned_carts := by
  cases hf : p.shopping.cart.items.find? (fun item => item.product_id == productId) with
  | none =>
    unfold FirebaseProfileManager.updateCartQuantity
    rw [hf]
  | some it =>
    by_cases hq : quantity ≤ 0
    · have : FirebaseProfileManager.updateCartQuantity products now productId quantity p =
          FirebaseProfileManager.removeFromCart products now productId p := by
        simp only [FirebaseProfileManager.updateCartQuantity, hf, if_pos hq]
      rw [this, removeFromCart_abandoned]
    · simp only [FirebaseProfileManager.updateCartQuantity, hf, if_neg hq]
      rw [updateCartTotal_abandoned]

theorem applyProfileOp_abandoned_le (products : List Product) (op : ProfileOp)
    (p : Profile) (h : p.shopping.abandoned_carts.length ≤ 10) :
    (applyProfileOp products op p).shopping.abandoned_carts.length ≤ 10 := by
  cases op with
  | updateProfileOp now updates =>
    simpa [applyProfileOp, FirebaseProfileManager.updateProfile] using h
  | trackActionOp env now action data =>
    simpa [applyProfileOp, FirebaseProfileManager.trackAction] using h
  | trackPageViewOp env now pageName data =>
    simpa [applyProfileOp, FirebaseProfileManager.trackPageView] using h
  | trackProductViewOp now productId productData =>
    simpa [applyProfileOp, FirebaseProfileManager.trackProductView] using h
  | addToCartOp now productId quantity =>
    show (FirebaseProfileManager.addToCart products now productId quantity
      p).shopping.abandoned_carts.length ≤ 10
    rw [addToCart_abandoned]
    exact h
  | removeFromCartOp now productId =>
    show (FirebaseProfileManager.removeFromCart products now productId
      p).shopping.abandoned_carts.length ≤ 10
    rw [removeFromCart_abandoned]
    exact h
  | updateCartQuantityOp now productId quantity =>
    show (FirebaseProfileManager.updateCartQuantity products now productId quantity
      p).shopping.abandoned_carts.length ≤ 10
    rw [updateCartQuantity_abandoned]
    exact h
  | clearCartOp now =>
    exact clearCart_abandoned_le now p h
  | addToWishlistOp now productId productData =>
    unfold applyProfileOp FirebaseProfileManager.addToWishlist
    cases hf : p.shopping.wishlist.find? (fun item => item.product_id == productId) <;>
      simpa [hf] using h
  | removeFromWishlistOp productId =>
    simpa [applyProfileOp, FirebaseProfileManager.removeFromWishlist] using h
  | addPurchaseOp now orderData =>
    show (FirebaseProfileManager.addPurchase now orderData
      p).shopping.abandoned_carts.length ≤ 10
    unfold FirebaseProfileManager.addPurchase
    apply clearCart_abandoned_le
    simpa using h

/-- C5: `clearCart()` on a cart holding at least one item appends exactly one
snapshot tagged `abandoned_at` to `abandoned_carts` (keeping at most the last
10, oldest dropped) and resets the cart to empty with total 0; on an empty
cart it appends nothing and still resets; and `abandoned_carts.length` never
exceeds 10 under any sequence of operations. -/
theorem clearCart_abandoned_semantics :
    (∀ (now : Nat) (p : Profile), p.shopping.cart.items ≠ [] →
      (FirebaseProfileManager.clearCart now p).shopping.abandoned_carts =
        sliceLast 10 (p.shopping.abandoned_carts ++
          [{ items := p.shopping.cart.items, total := p.shopping.cart.total,
             updated_at := p.shopping.cart.updated_at, abandoned_at := now }]) ∧
      (FirebaseProfileManager.clearCart now p).shopping.cart =
        { items := [], total := 0, updated_at := some now }) ∧
    (∀ (now : Nat) (p : Profile), p.shopping.cart.items = [] →
      (FirebaseProfileManager.clearCart now p).shopping.abandoned_carts =
        p.shopping.abandoned_carts ∧
      (FirebaseProfileManager.clearCart now p).shopping.cart =
        { items := [], total := 0, updated_at := some now }) ∧
    (∀ (products : List Product) (ops : List ProfileOp) (p : Profile),
      p.shopping.abandoned_carts.length ≤ 10 →
      (applyProfileOps products ops p).shopping.abandoned_carts.length ≤ 10) := by
  refine ⟨fun now p h => ⟨clearCart_abandoned_of_nonempty now p h, clearCart_cart now p⟩,
    fun now p h => ⟨clearCart_abandoned_of_empty now p h, clearCart_cart now p⟩, ?_⟩
  intro products ops
  induction ops with
  | nil => intro p h; exact h
  | cons op rest ih =>
    intro p h
    have hstep : applyProfileOps products (op :: rest) p =
        applyProfileOps products rest (applyProfileOp products op p) := by
      simp [applyProfileOps]
    rw [hstep]
    exact ih _ (applyProfileOp_abandoned_le products op p h)

/-- C5 witness: clearing the example registered profile's one-item cart
appends exactly one abandoned-cart snapshot and resets the cart. -/
theorem clearCart_abandoned_semantics_holds :
    (FirebaseProfileManager.clearCart 9 exampleRegistered).shopping.abandoned_carts =
      sliceLast 10 (exampleRegistered.shopping.abandoned_carts ++
        [{ items := exampleRegistered.shopping.cart.items,
           total := exampleRegistered.shopping.cart.total,
           updated_at := exampleRegistered.shopping.cart.updated_at,
           abandoned_at := 9 }]) ∧
    (FirebaseProfileManager.clearCart 9 exampleRegistered).shopping.cart =
      { items := [], total := 0, updated_at := some 9 } :=
  clearCart_abandoned_semantics.1 9 exampleRegistered (by decide)

theorem mergeGuestData_cart_of_nonempty (rp gp : Profile)
    (h : gp.shopping.cart.items.length > 0) :
    (FirebaseProfileManager.mergeGuestData rp gp).shopping.cart =
      gp.shopping.cart := by
  simp only [FirebaseProfileManager.mergeGuestData, if_pos h]
  by_cases h2 : gp.shopping.wishlist.length > 0 <;> simp [h2]

theorem mergeGuestData_cart_of_empty (rp gp : Profile)
    (h : gp.shopping.cart.items.length = 0) :
    (FirebaseProfileManager.mergeGuestData rp gp).shopping.cart =
      rp.shopping.cart := by
  have h' : ¬gp.shopping.cart.items.length > 0 := by omega
  simp only [FirebaseProfileManager.mergeGuestData, if_neg h']
  by_cases h2 : gp.shopping.wishlist.length > 0 <;> simp [h2]

/-- C2: in `mergeGuestData`, a guest cart with at least one item wholesale
replaces the registered profile's cart (even a non-empty registered cart is
discarded), a guest cart with zero items leaves the registered cart
untouched; and at manager level the merged guest profile is the one read
from the Local Cache. -/
theorem merge_guest_cart_rule :
    (∀ rp gp : Profile, gp.shopping.cart.items.length > 0 →
      (FirebaseProfileManager.mergeGuestData rp gp).shopping.cart =
        gp.shopping.cart) ∧
    (∀ rp gp : Profile, gp.shopping.cart.items.length = 0 →
      (FirebaseProfileManager.mergeGuestData rp gp).shopping.cart =
        rp.shopping.cart) ∧
    (∀ (sessionId : String) (s : ManagerState) (rp gp : Profile),
      docGet s.cache (guestProfileKey sessionId) = some gp →
      (FirebaseProfileManager.mergeGuestDataS sessionId s rp).2 =
        FirebaseProfileManager.mergeGuestData rp gp) := by
  refine ⟨mergeGuestData_cart_of_nonempty, mergeGuestData_cart_of_empty, ?_⟩
  intro sessionId s rp gp h
  simp [FirebaseProfileManager.mergeGuestDataS, h]

/-- C2 witness: merging a guest with a non-empty cart into the example
registered profile replaces the registered cart wholesale. -/
theorem merge_guest_cart_rule_holds :
    (FirebaseProfileManager.mergeGuestData exampleRegistered
      (FirebaseProfileManager.addToCart exampleCatalog 4 "sku-1" 2 exampleGuest)).shopping.cart =
      (FirebaseProfileManager.addToCart exampleCatalog 4 "sku-1" 2 exampleGuest).shopping.cart :=
  merge_guest_cart_rule.1 exampleRegistered
    (FirebaseProfileManager.addToCart exampleCatalog 4 "sku-1" 2 exampleGuest)
    (by decide)

/-- C1: when the current profile is a guest and the Identity Provider's
account creation (`createUserWithEmailAndPassword`) inside
`convertGuestToRegistered` rejects, the call propagates the error (returned
profile `none`) and the whole manager state is unchanged: `currentProfile` is
still the same guest object (same type, id and cart) and neither the Remote
Profile Store nor the Local Cache is mutated. -/
theorem convert_auth_failure_atomic (env : EnvInfo) (now : Nat) (sessionId : String)
    (deleteGuestDocOk : Bool) (userInfo : UserInfo) (s : ManagerState) (p : Profile)
    (hs : s.currentProfile = some p) (ht : p.type = ProfileType.guest) :
    FirebaseProfileManager.convertGuestToRegistered env now sessionId none
      deleteGuestDocOk userInfo s = (s, none) := by
  unfold FirebaseProfileManager.convertGuestToRegistered
  rw [hs]
  simp [ht]

/-- C1 witness: a failed signup from the example guest state leaves the state
intact and surfaces the error. -/
theorem convert_auth_failure_atomic_holds :
    FirebaseProfileManager.convertGuestToRegistered exampleEnv 7 "sess1" none
      true exampleUserInfo exampleGuestState = (exampleGuestState, none) :=
  convert_auth_failure_atomic exampleEnv 7 "sess1" true exampleUserInfo
    exampleGuestState exampleGuest rfl rfl

theorem docGet_docDelete (m : List (String × Profile)) (k : String) :
    docGet (docDelete m k) k = none := by
  induction m with
  | nil => rfl
  | cons kv rest ih =>
    unfold docDelete at ih ⊢
    rw [List.filter_cons]
    by_cases h : kv.1 == k
    · simp only [h, Bool.not_true, Bool.false_eq_true, if_false]
      exact ih
    · simp only [Bool.not_eq_true] at h
      simp only [h, Bool.not_false, if_true]
      unfold docGet at ih ⊢
      rw [List.find?_cons, h]
      exact ih

theorem trackAction_type (env : EnvInfo) (now : Nat) (action data : String)
    (p : Profile) :
    (FirebaseProfileManager.trackAction env now action data p).type = p.type := by
  simp [FirebaseProfileManager.trackAction]

theorem trackActionS_cache_of_registered (env : EnvInfo) (now : Nat)
    (sessionId : String) (action data : String) (s : ManagerState) (p : Profile)
    (hs : s.currentProfile = some p) (ht : p.type = ProfileType.registered) :
    (FirebaseProfileManager.trackActionS env now sessionId action data s).cache =
      s.cache := by
  unfold FirebaseProfileManager.trackActionS
  rw [hs]
  have htype : (FirebaseProfileManager.trackAction env now action data p).type =
      ProfileType.registered := by
    rw [trackAction_type, ht]
  simp [FirebaseProfileManager.persistProfile, htype]

theorem mergeGuestDataS_no_guest_cache (sessionId : String) (s : ManagerState)
    (rp : Profile) :
    docGet ((FirebaseProfileManager.mergeGuestDataS sessionId s rp).1).cache
      (guestProfileKey sessionId) = none := by
  unfold FirebaseProfileManager.mergeGuestDataS
  cases hg : docGet s.cache (guestProfileKey sessionId) with
  | none => simpa using hg
  | some gp => simpa using docGet_docDelete s.cache (guestProfileKey sessionId)

theorem convert_success_no_guest_cache (env : EnvInfo) (now : Nat)
    (sessionId : String) (uid : String) (deleteGuestDocOk : Bool)
    (userInfo : UserInfo) (s : ManagerState) (p : Profile)
    (hs : s.currentProfile = some p) (ht : p.type = ProfileType.guest) :
    docGet ((FirebaseProfileManager.convertGuestToRegistered env now sessionId
      (some uid) deleteGuestDocOk userInfo s).1).cache
      (guestProfileKey sessionId) = none := by
  unfold FirebaseProfileManager.convertGuestToRegistered
  rw [hs]
  simp only [ht, ne_eq, not_true_eq_false, if_false]
  rw [trackActionS_cache_of_registered _ _ _ _ _ _ _ rfl rfl]
  exact docGet_docDelete _ _

theorem handleAuthChange_signout (env : EnvInfo) (now : Nat) (sessionId : String)
    (s : ManagerState) (p : Profile) (hs : s.currentProfile = some p)
    (ht : p.type = ProfileType.registered) :
    (FirebaseProfileManager.handleAuthChange env now sessionId none s).currentProfile =
      some (FirebaseProfileManager.loadGuestProfile env now sessionId s).2 := by
  unfold FirebaseProfileManager.handleAuthChange
  rw [hs]
  rcases hlg : FirebaseProfileManager.loadGuestProfile env now sessionId s with ⟨s1, prof⟩
  simp [ht, hlg]

theorem loadGuestProfile_profile_of_no_cache (env : EnvInfo) (now : Nat)
    (sessionId : String) (s : ManagerState)
    (hc : docGet s.cache (guestProfileKey sessionId) = none) :
    (FirebaseProfileManager.loadGuestProfile env now sessionId s).2 =
      createBaseProfile env now sessionId ("guest_" ++ sessionId) ProfileType.guest := by
  simp [FirebaseProfileManager.loadGuestProfile, hc]

theorem loadGuestProfile_profile_cache_only (env : EnvInfo) (now : Nat)
    (sessionId : String) (s₁ s₂ : ManagerState) (h : s₁.cache = s₂.cache) :
    (FirebaseProfileManager.loadGuestProfile env now sessionId s₁).2 =
      (FirebaseProfileManager.loadGuestProfile env now sessionId s₂).2 := by
  unfold FirebaseProfileManager.loadGuestProfile
  rw [h]
  cases docGet s₂.cache (guestProfileKey sessionId) <;> simp

/-- C6: on sign-out (`handleAuthChange` with no identity) while a registered
profile is current, the registered profile is discarded outright with no
merge in that direction — the new current profile does not depend on the
discarded registered profile at all (first conjunct), and when the Local
Cache holds no guest entry for the session it is a freshly synthesized guest
profile whose cart is empty, carrying over none of the registered cart items
(second conjunct); both guest-to-registered paths (the sign-in merge and the
explicit conversion) leave the Local Cache without a guest entry, so that is
exactly the state a sign-out finds (third and fourth conjuncts). -/
theorem signout_discards_registered :
    (∀ (env : EnvInfo) (now : Nat) (sessionId : String) (s₁ s₂ : ManagerState)
       (p₁ p₂ : Profile),
      s₁.currentProfile = some p₁ → s₂.currentProfile = some p₂ →
      p₁.type = ProfileType.registered → p₂.type = ProfileType.registered →
      s₁.cache = s₂.cache →
      (FirebaseProfileManager.handleAuthChange env now sessionId none s₁).currentProfile =
        (FirebaseProfileManager.handleAuthChange env now sessionId none s₂).currentProfile) ∧
    (∀ (env : EnvInfo) (now : Nat) (sessionId : String) (s : ManagerState) (p : Profile),
      s.currentProfile = some p → p.type = ProfileType.registered →
      docGet s.cache (guestProfileKey sessionId) = none →
      (FirebaseProfileManager.handleAuthChange env now sessionId none s).currentProfile =
        some (createBaseProfile env now sessionId ("guest_" ++ sessionId)
          ProfileType.guest) ∧
      (createBaseProfile env now sessionId ("guest_" ++ sessionId)
        ProfileType.guest).type = ProfileType.guest ∧
      (createBaseProfile env now sessionId ("guest_" ++ sessionId)
        ProfileType.guest).shopping.cart.items = []) ∧
    (∀ (sessionId : String) (s : ManagerState) (rp : Profile),
      docGet ((FirebaseProfileManager.mergeGuestDataS sessionId s rp).1).cache
        (guestProfileKey sessionId) = none) ∧
    (∀ (env : EnvInfo) (now : Nat) (sessionId uid : String)
       (deleteGuestDocOk : Bool) (userInfo : UserInfo) (s : ManagerState)
       (p : Profile),
      s.currentProfile = some p → p.type = ProfileType.guest →
      docGet ((FirebaseProfileManager.convertGuestToRegistered env now sessionId
        (some uid) deleteGuestDocOk userInfo s).1).cache
        (guestProfileKey sessionId) = none) := by
  refine ⟨?_, ?_, mergeGuestDataS_no_guest_cache, ?_⟩
  · intro env now sessionId s₁ s₂ p₁ p₂ hs₁ hs₂ ht₁ ht₂ hcache
    rw [handleAuthChange_signout env now sessionId s₁ p₁ hs₁ ht₁,
      handleAuthChange_signout env now sessionId s₂ p₂ hs₂ ht₂,
      loadGuestProfile_profile_cache_only env now sessionId s₁ s₂ hcache]
  · intro env now sessionId s p hs ht hc
    refine ⟨?_, rfl, rfl⟩
    rw [handleAuthChange_signout env now sessionId s p hs ht,
      loadGuestProfile_profile_of_no_cache env now sessionId s hc]
  · intro env now sessionId uid deleteGuestDocOk userInfo s p hs ht
    exact convert_success_no_guest_cache env now sessionId uid deleteGuestDocOk
      userInfo s p hs ht

/-- C6 witness: signing out of the example registered state (whose cache has
no guest entry) yields a fresh guest profile with an empty cart. -/
theorem signout_discards_registered_holds :
    (FirebaseProfileManager.handleAuthChange exampleEnv 11 "sess1" none
      exampleRegisteredState).currentProfile =
      some (createBaseProfile exampleEnv 11 "sess1" ("guest_" ++ "sess1")
        ProfileType.guest) ∧
    (createBaseProfile exampleEnv 11 "sess1" ("guest_" ++ "sess1")
      ProfileType.guest).type = ProfileType.guest ∧
    (createBaseProfile exampleEnv 11 "sess1" ("guest_" ++ "sess1")
      ProfileType.guest).shopping.cart.items = [] :=
  signout_discards_registered.2.1 exampleEnv 11 "sess1" exampleRegisteredState
    exampleRegistered rfl (by decide) (by decide)

theorem offline_bumpFirst_cons (pid : String) (qty : Int) (now : Nat) (it : CartItem)
    (rest : List CartItem) :
    OfflineProfileManager.bumpFirst pid qty now (it :: rest) =
      if it.product_id == pid then
        { it with quantity := it.quantity + qty, updated_at := now } :: rest
      else it :: OfflineProfileManager.bumpFirst pid qty now rest := rfl

theorem offline_setQuantityFirst_cons (pid : String) (qty : Int) (now : Nat)
    (it : CartItem) (rest : List CartItem) :
    OfflineProfileManager.setQuantityFirst pid qty now (it :: rest) =
      if it.product_id == pid then
        { it with quantity := qty, updated_at := now } :: rest
      else it :: OfflineProfileManager.setQuantityFirst pid qty now rest := rfl

theorem setQuantityFirst_cons (pid : String) (qty : Int) (now : Nat)
    (it : CartItem) (rest : List CartItem) :
    FirebaseProfileManager.setQuantityFirst pid qty now (it :: rest) =
      if it.product_id == pid then
        { it with quantity := qty, updated_at := now } :: rest
      else it :: FirebaseProfileManager.setQuantityFirst pid qty now rest := rfl

theorem bumpFirst_agree (pid : String) (qty : Int) (now : Nat) :
    ∀ items : List CartItem,
      FirebaseProfileManager.bumpFirst pid qty now items =
        OfflineProfileManager.bumpFirst pid qty now items := by
  intro items
  induction items with
  | nil => rfl
  | cons it rest ih =>
    rw [bumpFirst_cons, offline_bumpFirst_cons]
    by_cases h : it.product_id == pid
    · simp [h]
    · simp only [Bool.not_eq_true] at h
      simp [h, ih]

theorem setQuantityFirst_agree (pid : String) (qty : Int) (now : Nat) :
    ∀ items : List CartItem,
      FirebaseProfileManager.setQuantityFirst pid qty now items =
        OfflineProfileManager.setQuantityFirst pid qty now items := by
  intro items
  induction items with
  | nil => rfl
  | cons it rest ih =>
    rw [setQuantityFirst_cons, offline_setQuantityFirst_cons]
    by_cases h : it.product_id == pid
    · simp [h]
    · simp only [Bool.not_eq_true] at h
      simp [h, ih]

theorem addToCart_agree (products : List Product) (now : Nat) (productId : String)
    (quantity : Int) (p : Profile) :
    FirebaseProfileManager.addToCart products now productId quantity p =
      OfflineProfileManager.addToCart products now productId quantity p := by
  unfold FirebaseProfileManager.addToCart OfflineProfileManager.addToCart
  cases hf : p.shopping.cart.items.find? (fun item => item.product_id == productId) with
  | none =>
    simp only [hf]
    rfl
  | some it =>
    simp only [hf]
    rw [bumpFirst_agree]
    rfl

theorem updateCartQuantity_agree (products : List Product) (now : Nat)
    (productId : String) (quantity : Int) (p : Profile) :
    FirebaseProfileManager.updateCartQuantity products now productId quantity p =
      OfflineProfileManager.updateCartQuantity products now productId quantity p := by
  unfold FirebaseProfileManager.updateCartQuantity OfflineProfileManager.updateCartQuantity
  cases hf : p.shopping.cart.items.find? (fun item => item.product_id == productId) with
  | none => simp only [hf]
  | some it =>
    simp only [hf]
    by_cases hq : quantity ≤ 0
    · simp only [if_pos hq]
      rfl
    · simp only [if_neg hq]
      rw [setQuantityFirst_agree]
      rfl

/-- C8: the two Profile Manager variants are interchangeable at the field
level: every shared mutating operation produces the same in-memory profile in
the Firebase-backed and the offline variant, for all starting profiles and
arguments (the variants differ only in which persistence substrate the
result is written to). -/
theorem manager_variants_agree :
    (∀ (now : Nat) (updates : ProfileUpdates) (p : Profile),
      FirebaseProfileManager.updateProfile now updates p =
        OfflineProfileManager.updateProfile now updates p) ∧
    (∀ (env : EnvInfo) (now : Nat) (action data : String) (p : Profile),
      FirebaseProfileManager.trackAction env now action data p =
        OfflineProfileManager.trackAction env now action data p) ∧
    (∀ (env : EnvInfo) (now : Nat) (pageName data : String) (p : Profile),
      FirebaseProfileManager.trackPageView env now pageName data p =
        OfflineProfileManager.trackPageView env now pageName data p) ∧
    (∀ (now : Nat) (productId productData : String) (p : Profile),
      FirebaseProfileManager.trackProductView now productId productData p =
        OfflineProfileManager.trackProductView now productId productData p) ∧
    (∀ (products : List Product) (now : Nat) (productId : String) (quantity : Int)
       (p : Profile),
      FirebaseProfileManager.addToCart products now productId quantity p =
        OfflineProfileManager.addToCart products now productId quantity p) ∧
    (∀ (products : List Product) (now : Nat) (productId : String) (p : Profile),
      FirebaseProfileManager.removeFromCart products now productId p =
        OfflineProfileManager.removeFromCart products now productId p) ∧
    (∀ (products : List Product) (now : Nat) (productId : String) (quantity : Int)
       (p : Profile),
      FirebaseProfileManager.updateCartQuantity products now productId quantity p =
        OfflineProfileManager.updateCartQuantity products now productId quantity p) ∧
    (∀ (now : Nat) (p : Profile),
      FirebaseProfileManager.clearCart now p = OfflineProfileManager.clearCart now p) ∧
    (∀ (now : Nat) (productId productData : String) (p : Profile),
      FirebaseProfileManager.addToWishlist now productId productData p =
        OfflineProfileManager.addToWishlist now productId productData p) ∧
    (∀ (productId : String) (p : Profile),
      FirebaseProfileManager.removeFromWishlist productId p =
        OfflineProfileManager.removeFromWishlist productId p) ∧
    (∀ (now : Nat) (orderData : String) (p : Profile),
      FirebaseProfileManager.addPurchase now orderData p =
        OfflineProfileManager.addPurchase now orderData p) := by
  refine ⟨fun _ _ _ => rfl, fun _ _ _ _ _ => rfl, fun _ _ _ _ _ => rfl,
    fun _ _ _ _ => rfl, addToCart_agree, fun _ _ _ _ => rfl,
    updateCartQuantity_agree, fun _ _ => rfl, fun _ _ _ _ => rfl,
    fun _ _ => rfl, fun _ _ _ => rfl⟩

/-- C9: every mutating Profile Manager operation called while
`currentProfile` is null returns without throwing and leaves the whole
manager state unchanged, and `updateProfile` additionally returns null — in
both variants. -/
theorem null_profile_guard :
    (∀ (products : List Product) (env : EnvInfo) (now : Nat) (sessionId : String)
       (pid pdata action data pageName orderData : String) (qty : Int)
       (updates : ProfileUpdates) (s : ManagerState), s.currentProfile = none →
      FirebaseProfileManager.trackActionS env now sessionId action data s = s ∧
      FirebaseProfileManager.trackPageViewS env now sessionId pageName data s = s ∧
      FirebaseProfileManager.trackProductViewS now sessionId pid pdata s = s ∧
      FirebaseProfileManager.addToCartS products now sessionId pid qty s = s ∧
      FirebaseProfileManager.removeFromCartS products now sessionId pid s = s ∧
      FirebaseProfileManager.updateCartQuantityS products now sessionId pid qty s = s ∧
      FirebaseProfileManager.clearCartS now sessionId s = s ∧
      FirebaseProfileManager.addToWishlistS now sessionId pid pdata s = s ∧
      FirebaseProfileManager.removeFromWishlistS sessionId pid s = s ∧
      FirebaseProfileManager.addPurchaseS now sessionId orderData s = s ∧
      FirebaseProfileManager.updateProfileS now sessionId updates s =
        (s, FirebaseProfileManager.UpdateResult.nullProfile)) ∧
    (∀ (products : List Product) (env : EnvInfo) (now : Nat)
       (pid pdata action data pageName orderData : String) (qty : Int)
       (updates : ProfileUpdates) (s : OfflineState), s.currentProfile = none →
      OfflineProfileManager.trackActionS env now action data s = s ∧
      OfflineProfileManager.trackPageViewS env now pageName data s = s ∧
      OfflineProfileManager.trackProductViewS now pid pdata s = s ∧
      OfflineProfileManager.addToCartS products now pid qty s = s ∧
      OfflineProfileManager.removeFromCartS products now pid s = s ∧
      OfflineProfileManager.updateCartQuantityS products now pid qty s = s ∧
      OfflineProfileManager.clearCartS now s = s ∧
      OfflineProfileManager.addToWishlistS now pid pdata s = s ∧
      OfflineProfileManager.removeFromWishlistS pid s = s ∧
      OfflineProfileManager.addPurchaseS now orderData s = s ∧
      OfflineProfileManager.updateProfileS now updates s = (s, none)) := by
  constructor
  · intro products env now sessionId pid pdata action data pageName orderData qty
      updates s h
    refine ⟨?_, ?_, ?_, ?_, ?_, ?_, ?_, ?_, ?_, ?_, ?_⟩ <;>
      simp [FirebaseProfileManager.trackActionS, FirebaseProfileManager.trackPageViewS,
        FirebaseProfileManager.trackProductViewS, FirebaseProfileManager.addToCartS,
        FirebaseProfileManager.removeFromCartS, FirebaseProfileManager.updateCartQuantityS,
        FirebaseProfileManager.clearCartS, FirebaseProfileManager.addToWishlistS,
        FirebaseProfileManager.removeFromWishlistS, FirebaseProfileManager.addPurchaseS,
        FirebaseProfileManager.updateProfileS, h]
  · intro products env now pid pdata action data pageName orderData qty updates s h
    refine ⟨?_, ?_, ?_, ?_, ?_, ?_, ?_, ?_, ?_, ?_, ?_⟩ <;>
      simp [OfflineProfileManager.trackActionS, OfflineProfileManager.trackPageViewS,
        OfflineProfileManager.trackProductViewS, OfflineProfileManager.addToCartS,
        OfflineProfileManager.removeFromCartS, OfflineProfileManager.updateCartQuantityS,
        OfflineProfileManager.clearCartS, OfflineProfileManager.addToWishlistS,
        OfflineProfileManager.removeFromWishlistS, OfflineProfileManager.addPurchaseS,
        OfflineProfileManager.updateProfileS, h]

/-- C9 witness: `addToCart` on the example null-profile states of both
variants leaves each state unchanged. -/
theorem null_profile_guard_holds :
    FirebaseProfileManager.addToCartS exampleCatalog 5 "sess1" "sku-1" 1
      exampleNullState = exampleNullState ∧
    OfflineProfileManager.addToCartS exampleCatalog 5 "sku-1" 1
      exampleOfflineNullState = exampleOfflineNullState :=
  ⟨(null_profile_guard.1 exampleCatalog exampleEnv 5 "sess1" "sku-1" "pd" "a" "d"
      "pg" "od" 1 {} exampleNullState rfl).2.2.2.1,
   (null_profile_guard.2 exampleCatalog exampleEnv 5 "sku-1" "pd" "a" "d"
      "pg" "od" 1 {} exampleOfflineNullState rfl).2.2.2.1⟩

theorem bumpFirst_length (pid : String) (qty : Int) (now : Nat)
    (items : List CartItem) :
    (FirebaseProfileManager.bumpFirst pid qty now items).length = items.length := by
  have h := bumpFirst_map_product_id pid qty now items
  have h1 := congrArg List.length h
  simpa using h1

theorem bumpFirst_mem_of_find? (pid : String) (qty : Int) (now : Nat) :
    ∀ (items : List CartItem) (it : CartItem),
      items.find? (fun j => j.product_id == pid) = some it →
      { it with quantity := it.quantity + qty, updated_at := now } ∈
        FirebaseProfileManager.bumpFirst pid qty now items := by
  intro items
  induction items with
  | nil => intro it h; simp at h
  | cons a rest ih =>
    intro it h
    rw [List.find?_cons] at h
    by_cases ha : a.product_id == pid
    · rw [ha] at h
      injection h with h
      subst h
      rw [bumpFirst_cons]
      simp [ha]
    · simp only [Bool.not_eq_true] at ha
      rw [ha] at h
      rw [bumpFirst_cons]
      simp only [ha, Bool.false_eq_true, if_false]
      exact List.mem_cons_of_mem a (ih it h)

/-- C10: `addToCart` performs no validation of its quantity argument: with
any quantity ≤ 0 it appends a cart line carrying that non-positive quantity
when no line with the `product_id` exists, and when one exists it adds the
(possibly negative) quantity to it — possibly driving it below 1 — while
keeping the line and never rejecting the call; `updateCartQuantity`, by
contrast, delegates quantity ≤ 0 to `removeFromCart`, which filters the line
out. -/
theorem addToCart_no_quantity_validation :
    (∀ (products : List Product) (now : Nat) (productId : String) (quantity : Int)
       (p : Profile), quantity ≤ 0 →
      p.shopping.cart.items.find? (fun it => it.product_id == productId) = none →
      (FirebaseProfileManager.addToCart products now productId quantity p).shopping.cart.items =
        p.shopping.cart.items ++
          [{ product_id := productId, quantity := quantity,
             added_at := now, updated_at := now }]) ∧
    (∀ (products : List Product) (now : Nat) (productId : String) (quantity : Int)
       (p : Profile) (it : CartItem),
      p.shopping.cart.items.find? (fun j => j.product_id == productId) = some it →
      (FirebaseProfileManager.addToCart products now productId quantity
        p).shopping.cart.items.length = p.shopping.cart.items.length ∧
      { it with quantity := it.quantity + quantity, updated_at := now } ∈
        (FirebaseProfileManager.addToCart products now productId quantity
          p).shopping.cart.items) ∧
    (∀ (products : List Product) (now : Nat) (productId : String) (quantity : Int)
       (p : Profile) (it : CartItem), quantity ≤ 0 →
      p.shopping.cart.items.find? (fun j => j.product_id == productId) = some it →
      FirebaseProfileManager.updateCartQuantity products now productId quantity p =
        FirebaseProfileManager.removeFromCart products now productId p ∧
      (FirebaseProfileManager.removeFromCart products now productId
        p).shopping.cart.items =
        p.shopping.cart.items.filter (fun j => !(j.product_id == productId))) := by
  refine ⟨?_, ?_, ?_⟩
  · intro products now productId quantity p _ h
    exact addToCart_items_of_absent products now productId quantity p h
  · intro products now productId quantity p it h
    rw [addToCart_items_of_found products now productId quantity p it h]
    exact ⟨bumpFirst_length productId quantity now p.shopping.cart.items,
      bumpFirst_mem_of_find? productId quantity now p.shopping.cart.items it h⟩
  · intro products now productId quantity p it hq h
    refine ⟨?_, removeFromCart_items products now productId p⟩
    simp only [FirebaseProfileManager.updateCartQuantity, h, if_pos hq]

/-- C10 witness: `addToCart("sku-1", -1)` on the fresh example guest appends
a line with quantity -1, while `updateCartQuantity` at quantity 0 on the
example registered profile removes the line instead. -/
theorem addToCart_no_quantity_validation_holds :
    (FirebaseProfileManager.addToCart exampleCatalog 5 "sku-1" (-1)
      exampleGuest).shopping.cart.items =
      exampleGuest.shopping.cart.items ++
        [{ product_id := "sku-1", quantity := -1, added_at := 5, updated_at := 5 }] :=
  addToCart_no_quantity_validation.1 exampleCatalog 5 "sku-1" (-1) exampleGuest
    (by decide) (by decide)
